import Mathlib

/-!
# TwoBlurVR: stereo rendering with selectable blur and GPU timestamp profiling

A shallow embedding of `src/TwoBlurVR/main.cpp`.

Conventions of the embedding:

* `float` values (`moveX`, `rotY`, matrix entries, positions of the scene items) are
  modelled by rationals; rounding is not modelled.
* `viewportDimensions` holds the integers handed to `resizeCallback` (initially 1366 x 768).
* `int` arithmetic of the viewport split is 32-bit two's complement (`wrap32`), division
  truncates towards zero.
* OpenGL is an explicit object state (`GLState`); every call the frame makes is also logged as a
  `Cmd`, so that properties of the emitted command stream can be stated.
* `Transform3D`, `Mesh`, `Material`, `Texture`, `FPSController` and `glm::perspective` are
  collaborators whose code is not part of `main.cpp`; they enter as parameters.
-/

namespace TwoBlurVR

/-! ## Basic types -/

abbrev GLuint := Nat

abbrev Mat4 := Matrix (Fin 4) (Fin 4) ℚ

abbrev Vec3 := ℚ × ℚ × ℚ

/-- The meshes loaded at start-up (`Mesh* model`, `car`, ...). -/
inductive MeshId
  | model | car | dog | kitten | crate | helix | torus | wheel | bear
  deriving DecidableEq, Repr

/-- The textures loaded at start-up (`Texture* colPlaneTex`, ...). -/
inductive TexId
  | colPlaneTex | normPlaneTex | blankNormTex | colCarTex | kittenTex | dogTex | crateTex
  | rustyTex
  deriving DecidableEq, Repr

/-- Shader uniform names (`cameraView1VS`, `cameraView2VS`, `worldMatrixVS`, `colorTexFS`,
`normalTexFS`). -/
inductive Uniform
  | cameraView1 | cameraView2 | worldMatrix | tex | tex2
  deriving DecidableEq, Repr

/-- The four shader programs. -/
inductive Program
  | shaderProgram1 | programBlurOne | programBlurTwoPart1 | programBlurTwoPart2
  deriving DecidableEq, Repr

/-- The `GLuint64` variables receiving query results. -/
inductive TimeVar
  | startTime | startEye1 | endEye1 | endEye2 | endBlur1 | endBlur2
  deriving DecidableEq, Repr

/-- The lines printed by a profiled frame. -/
inductive Label
  | bothEyes | fullFrame | blurEyes | blurPart1 | blurPart2 | blurTotal
  deriving DecidableEq, Repr

/-- Texture parameter names set by `MakeRT`. -/
inductive TexPName
  | wrapS | wrapT | minFilter | magFilter
  deriving DecidableEq, Repr

/-- Texture parameter values set by `MakeRT`. -/
inductive TexPValue
  | clampToBorder | nearest
  deriving DecidableEq, Repr

/-! ## OpenGL object state -/

/-- The part of the OpenGL state the program touches. Object names are generated by counting
(`glGen*` returns a fresh non-zero name). `boundTexture = none` means the binding was last
changed by a collaborator (`Material::Bind`) and is not tracked. `queryResult i` is the
timestamp last recorded for `queryID[i]`, `none` while `queryID[i]` was never issued. -/
structure GLState where
  genFramebuffers : Nat
  genTextures : Nat
  genRenderbuffers : Nat
  boundFramebuffer : GLuint
  boundTexture : Option GLuint
  boundRenderbuffer : GLuint
  texImage : GLuint → Option (Int × Int)
  texParameter : GLuint → TexPName → Option TexPValue
  renderbufferStorage : GLuint → Option (Int × Int)
  colorAttachment : GLuint → Option GLuint
  depthStencilAttachment : GLuint → Option GLuint
  queryResult : Nat → Option Nat

def glGenFramebuffers (gl : GLState) : GLuint × GLState :=
  (gl.genFramebuffers + 1, { gl with genFramebuffers := gl.genFramebuffers + 1 })

def glGenTextures (gl : GLState) : GLuint × GLState :=
  (gl.genTextures + 1, { gl with genTextures := gl.genTextures + 1 })

def glGenRenderbuffers (gl : GLState) : GLuint × GLState :=
  (gl.genRenderbuffers + 1, { gl with genRenderbuffers := gl.genRenderbuffers + 1 })

def glBindFramebuffer (fb : GLuint) (gl : GLState) : GLState :=
  { gl with boundFramebuffer := fb }

def glBindTexture (t : GLuint) (gl : GLState) : GLState :=
  { gl with boundTexture := some t }

def glBindRenderbuffer (rb : GLuint) (gl : GLState) : GLState :=
  { gl with boundRenderbuffer := rb }

/-- The call `glTexImage2D(GL_TEXTURE_2D, 0, GL_RGB, w, h, ...)`: storage for the bound
texture. -/
def glTexImage2D (w h : Int) (gl : GLState) : GLState :=
  match gl.boundTexture with
  | some t => { gl with texImage := Function.update gl.texImage t (some (w, h)) }
  | none => gl

def glTexParameteri (p : TexPName) (v : TexPValue) (gl : GLState) : GLState :=
  match gl.boundTexture with
  | some t =>
    { gl with texParameter := Function.update gl.texParameter t
                (Function.update (gl.texParameter t) p (some v)) }
  | none => gl

/-- The call `glRenderbufferStorage(GL_RENDERBUFFER, GL_DEPTH24_STENCIL8, w, h)`. -/
def glRenderbufferStorage (w h : Int) (gl : GLState) : GLState :=
  { gl with renderbufferStorage :=
      Function.update gl.renderbufferStorage gl.boundRenderbuffer (some (w, h)) }

/-- The call `glFramebufferTexture2D(GL_FRAMEBUFFER, GL_COLOR_ATTACHMENT0, GL_TEXTURE_2D, t, 0)`. -/
def glFramebufferTexture2D (t : GLuint) (gl : GLState) : GLState :=
  { gl with colorAttachment := Function.update gl.colorAttachment gl.boundFramebuffer (some t) }

/-- The call `glFramebufferRenderbuffer(GL_FRAMEBUFFER, GL_DEPTH_STENCIL_ATTACHMENT, ..., rb)`. -/
def glFramebufferRenderbuffer (rb : GLuint) (gl : GLState) : GLState :=
  { gl with depthStencilAttachment :=
      Function.update gl.depthStencilAttachment gl.boundFramebuffer (some rb) }

/-! ## Program state -/

/-- The globals of `main.cpp` and the locals of `main` that live across frames. `T` is the
type of `Transform3D`. -/
structure State (T : Type) where
  viewportDimensions : Int × Int
  frameBuffer : Nat → GLuint
  screenTexture : Nat → GLuint
  renderBuffer : Nat → GLuint
  rotY : ℚ
  moveX : ℚ
  numBlur : Nat
  lastQuery : Nat
  times : TimeVar → Nat
  transform : T
  gl : GLState

/-- Window resize callback: `viewportDimensions = glm::vec2(width, height)`. -/
def resizeCallback {T : Type} (width height : Int) (s : State T) : State T :=
  { s with viewportDimensions := (width, height) }

/-- The function `MakeRT(i)`. -/
def MakeRT {T : Type} (i : Nat) (s : State T) : State T :=
  -- glGenFramebuffers(1, &frameBuffer[i]); glBindFramebuffer(GL_FRAMEBUFFER, frameBuffer[i]);
  let s1 : State T :=
    { s with frameBuffer := Function.update s.frameBuffer i (glGenFramebuffers s.gl).1,
             gl := (glGenFramebuffers s.gl).2 }
  let s2 : State T := { s1 with gl := glBindFramebuffer (s1.frameBuffer i) s1.gl }
  -- glGenTextures(1, &screenTexture[i]); glBindTexture(GL_TEXTURE_2D, screenTexture[i]);
  let s3 : State T :=
    { s2 with screenTexture := Function.update s2.screenTexture i (glGenTextures s2.gl).1,
              gl := (glGenTextures s2.gl).2 }
  let s4 : State T := { s3 with gl := glBindTexture (s3.screenTexture i) s3.gl }
  -- glTexImage2D(..., viewportDimensions.x, viewportDimensions.y, ...)
  let g1 : GLState := glTexImage2D s4.viewportDimensions.1 s4.viewportDimensions.2 s4.gl
  -- glTexParameteri: clamp to border, nearest filtering; glBindTexture(GL_TEXTURE_2D, 0)
  let g2 : GLState := glTexParameteri TexPName.wrapS TexPValue.clampToBorder g1
  let g3 : GLState := glTexParameteri TexPName.wrapT TexPValue.clampToBorder g2
  let g4 : GLState := glTexParameteri TexPName.minFilter TexPValue.nearest g3
  let g5 : GLState := glTexParameteri TexPName.magFilter TexPValue.nearest g4
  let s5 : State T := { s4 with gl := glBindTexture 0 g5 }
  -- glGenRenderbuffers(1, &renderBuffer[i]); glBindRenderbuffer(GL_RENDERBUFFER, renderBuffer[i]);
  let s6 : State T :=
    { s5 with renderBuffer := Function.update s5.renderBuffer i (glGenRenderbuffers s5.gl).1,
              gl := (glGenRenderbuffers s5.gl).2 }
  let s7 : State T := { s6 with gl := glBindRenderbuffer (s6.renderBuffer i) s6.gl }
  -- glRenderbufferStorage(...); glBindRenderbuffer(GL_RENDERBUFFER, 0);
  let g6 : GLState := glRenderbufferStorage s7.viewportDimensions.1 s7.viewportDimensions.2 s7.gl
  let s8 : State T := { s7 with gl := glBindRenderbuffer 0 g6 }
  -- glFramebufferTexture2D(..., screenTexture[i], 0); glFramebufferRenderbuffer(..., renderBuffer[i]);
  let g7 : GLState := glFramebufferTexture2D (s8.screenTexture i) s8.gl
  { s8 with gl := glFramebufferRenderbuffer (s8.renderBuffer i) g7 }

/-! ## Collaborators -/

/-- The operations of `Transform3D` (transform3d.h) and `glm::perspective` that `main` calls.
Their code is not part of `main.cpp`; they are parameters of the embedding. -/
structure Collaborators (T : Type) where
  SetPosition : T → Vec3 → T
  SetRotation : T → Vec3 → T
  SetScale : T → ℚ → T
  RotateY : T → ℚ → T
  GetMatrix : T → Mat4
  GetInverseMatrix : T → Mat4
  perspective : ℚ → ℚ → ℚ → ℚ → Mat4

/-- The function `glm::translate(m, v)` of GLM: the last column becomes
`m[0] * v.x + m[1] * v.y + m[2] * v.z + m[3]`, the other columns are kept. -/
def translate (m : Mat4) (v : Vec3) : Mat4 :=
  fun r c =>
    if c = 3 then m r 0 * v.1 + m r 1 * v.2.1 + m r 2 * v.2.2 + m r 3 else m r c

/-! ## Commands issued by a frame -/

/-- One call made by the body of the main loop, in the order of issue. -/
inductive Cmd
  | glQueryCounter (q : Nat)
  | glBindFramebuffer (fb : GLuint)
  | glClearColor
  | glEnableDepthTest
  | glClear
  | glViewportIndexedf (index : Nat) (x y w h : Int)
  | setMatrix (name : Uniform) (m : Mat4)
  | setTexture (name : Uniform) (t : TexId)
  | materialBind
  | meshDraw (m : MeshId)
  | glViewport (x y w h : Int)
  | programBind (p : Program)
  | glGetUniformLocation (p : Program) (name : Uniform)
  | glActiveTexture0
  | glBindTexture (t : GLuint)
  | glUniform1i (p : Program) (name : Uniform) (v : Int)
  | glDrawArrays (first count : Nat)
  | glGetQueryAvailable (q : Nat)
  | glGetQueryResult (q : Nat) (var : TimeVar)
  | systemCls
  | printf (label : Label) (nanos : Nat)
  | glfwSwapBuffers
  | glfwPollEvents

/-- What the environment supplies to one iteration of the main loop: the key states read by
`glfwGetKey`, the camera transform after `controller.Update`, the resize notifications
delivered by `glfwPollEvents`, and the GPU side of the timestamp queries (`gpuTime q` is the
timestamp recorded for `queryID[q]` when it is issued in this frame, `gpuPolls` the number of
availability polls answered "not yet" before the polled query is reported available). -/
structure Input (T : Type) where
  shouldClose : Bool
  keyEscape : Bool
  key1 : Bool
  key2 : Bool
  keyI : Bool
  keyO : Bool
  keyP : Bool
  keyB : Bool
  camera : T
  resizes : List (Int × Int)
  gpuTime : Nat → Nat
  gpuPolls : Nat

/-! ## Per-frame input adjustments -/

/-- The value of `moveX` after the two key adjustments, before the clamp:
`if (key 1) moveX += 0.01f; if (key 2) moveX -= 0.01f;`. -/
def keyAdjustedMoveX (key1 key2 : Bool) (moveX : ℚ) : ℚ :=
  let m1 := if key1 then moveX + 1 / 100 else moveX
  if key2 then m1 - 1 / 100 else m1

/-- The eye-offset adjustment of a frame: the key adjustments followed by
`if (moveX > 0) moveX = 0;`. -/
def adjustMoveX (key1 key2 : Bool) (moveX : ℚ) : ℚ :=
  let m := keyAdjustedMoveX key1 key2 moveX
  if m > 0 then 0 else m

/-- The blur-mode selection:
`if (key I) numBlur = 0; if (key O) numBlur = 1; if (key P) numBlur = 2;`. -/
def selectBlur (keyI keyO keyP : Bool) (numBlur : Nat) : Nat :=
  let n1 := if keyI then 0 else numBlur
  let n2 := if keyO then 1 else n1
  if keyP then 2 else n2

/-! ## Viewport split -/

/-- A C `int` result: reduction to 32-bit two's complement. -/
def wrap32 (x : Int) : Int :=
  (x + 2147483648) % 4294967296 - 2147483648

/-- The width of each eye: `int sizeX = 45 * screenW / 100;`. -/
def sizeX (screenW : Int) : Int :=
  Int.tdiv (wrap32 (45 * screenW)) 100

/-- The start of the right eye: `int v2startX = 55 * screenW / 100;`. -/
def v2startX (screenW : Int) : Int :=
  Int.tdiv (wrap32 (55 * screenW)) 100

/-! ## Eye view matrices -/

/-- The left-eye view matrix: `view = controller.GetTransform().GetInverseMatrix();`. -/
def leftView {T : Type} (ops : Collaborators T) (camera : T) : Mat4 :=
  ops.GetInverseMatrix camera

/-- The right-eye view matrix:
`temp = controller.GetTransform(); temp.RotateY(rotY); view = temp.GetInverseMatrix();
view = glm::translate(view, glm::vec3(moveX, 0, 0));`. -/
def rightView {T : Type} (ops : Collaborators T) (camera : T) (rotY moveX : ℚ) : Mat4 :=
  translate (ops.GetInverseMatrix (ops.RotateY camera rotY)) (moveX, 0, 0)

/-- The projection matrix:
`glm::perspective(0.9f, 0.45f * viewportDimensions.x / viewportDimensions.y, .1f, 100.f)`. -/
def projection {T : Type} (ops : Collaborators T) (dims : Int × Int) : Mat4 :=
  ops.perspective (9 / 10) (45 / 100 * (dims.1 : ℚ) / (dims.2 : ℚ)) (1 / 10) 100

/-- The matrix uploaded as `cameraView1`: `projection * view` for the left eye. -/
def cameraView1 {T : Type} (ops : Collaborators T) (dims : Int × Int) (camera : T) : Mat4 :=
  projection ops dims * leftView ops camera

/-- The matrix uploaded as `cameraView2`: `projection * view` for the right eye. -/
def cameraView2 {T : Type} (ops : Collaborators T) (dims : Int × Int) (camera : T)
    (rotY moveX : ℚ) : Mat4 :=
  projection ops dims * rightView ops camera rotY moveX

/-! ## The scene draw list -/

/-- One entry of the fixed draw list. -/
structure Item where
  position : Vec3
  rotation : Vec3
  scale : ℚ
  colorTex : TexId
  normalTex : TexId
  mesh : MeshId

/-- The torus drawn by iteration `i` of `for (int i = 0; i < 10; i++)`. -/
def torusItem (i : Nat) : Item :=
  { position := ((i : ℚ) * 2 - 10, 0, -20), rotation := ((i : ℚ), (i : ℚ) * 2, (i : ℚ) * 3),
    scale := 1, colorTex := TexId.rustyTex, normalTex := TexId.blankNormTex,
    mesh := MeshId.torus }

/-- The draw list of `main`, in source order. -/
def sceneItems : List Item :=
  [ { position := (-1, 2 / 10, -8), rotation := (0, -12 / 10, 0), scale := 3 / 10,
      colorTex := TexId.blankNormTex, normalTex := TexId.blankNormTex, mesh := MeshId.bear },
    { position := (-1, -1, -12), rotation := (0, 35 / 20, 0), scale := 1,
      colorTex := TexId.blankNormTex, normalTex := TexId.blankNormTex, mesh := MeshId.kitten },
    { position := (0, -1, -12), rotation := (0, 35 / 20, 0), scale := 1,
      colorTex := TexId.dogTex, normalTex := TexId.blankNormTex, mesh := MeshId.dog },
    { position := (75 / 10, -1 / 2, -10), rotation := (2, 0, 0), scale := 1,
      colorTex := TexId.crateTex, normalTex := TexId.blankNormTex, mesh := MeshId.crate },
    { position := (6, -1 / 2, -10), rotation := (1, 0, 0), scale := 1,
      colorTex := TexId.crateTex, normalTex := TexId.blankNormTex, mesh := MeshId.crate },
    { position := (-4, -1 / 2, -10), rotation := (0, 1, 0), scale := 1,
      colorTex := TexId.crateTex, normalTex := TexId.blankNormTex, mesh := MeshId.crate },
    { position := (25 / 10, -1 / 2, -10), rotation := (314 / 200, 0, 0), scale := 1,
      colorTex := TexId.blankNormTex, normalTex := TexId.blankNormTex, mesh := MeshId.helix },
    { position := (25 / 10, -1, -15), rotation := (0, 2, 0), scale := 1,
      colorTex := TexId.colCarTex, normalTex := TexId.blankNormTex, mesh := MeshId.car },
    { position := (-25 / 10, -1, -15), rotation := (0, 75 / 100, 0), scale := 1,
      colorTex := TexId.colCarTex, normalTex := TexId.blankNormTex, mesh := MeshId.car } ]
  ++ (List.range 10).map torusItem
  ++ [ { position := (0, 0, -10), rotation := (0, 0, 0), scale := 10,
         colorTex := TexId.colPlaneTex, normalTex := TexId.normPlaneTex,
         mesh := MeshId.model } ]

/-- Drawing one item: set position, rotation and scale of `transform`, upload its matrix and
the two textures, bind the material, draw the mesh. -/
def drawItem {T : Type} (ops : Collaborators T) (t : T) (it : Item) : List Cmd × T :=
  let t3 := ops.SetScale (ops.SetRotation (ops.SetPosition t it.position) it.rotation) it.scale
  ([Cmd.setMatrix Uniform.worldMatrix (ops.GetMatrix t3),
    Cmd.setTexture Uniform.tex it.colorTex,
    Cmd.setTexture Uniform.tex2 it.normalTex,
    Cmd.materialBind,
    Cmd.meshDraw it.mesh], t3)

/-- Drawing a list of items in order, threading the variable `transform`. -/
def drawScene {T : Type} (ops : Collaborators T) : T → List Item → List Cmd × T
  | t, [] => ([], t)
  | t, it :: rest =>
    ((drawItem ops t it).1 ++ (drawScene ops (drawItem ops t it).2 rest).1,
     (drawScene ops (drawItem ops t it).2 rest).2)

/-! ## Effect of the commands on the OpenGL state -/

/-- A `GLuint64` value. -/
def u64 (n : Nat) : Nat := n % 18446744073709551616

/-- Subtraction of `GLuint64` values. -/
def sub64 (a b : Nat) : Nat := (u64 a + (18446744073709551616 - u64 b)) % 18446744073709551616

/-- The effect of one command on the tracked OpenGL state. `Material::Bind` leaves the texture
binding unspecified; a timestamp query records the time the GPU reports for it. -/
def execGL (gpuTime : Nat → Nat) (gl : GLState) : Cmd → GLState
  | Cmd.glBindFramebuffer fb => glBindFramebuffer fb gl
  | Cmd.glBindTexture t => glBindTexture t gl
  | Cmd.materialBind => { gl with boundTexture := none }
  | Cmd.glQueryCounter q =>
    { gl with queryResult := Function.update gl.queryResult q (some (u64 (gpuTime q))) }
  | _ => gl

/-- The call `glGetQueryObjectui64v(queryID[q], GL_QUERY_RESULT, &var)`: the variable receives the
recorded timestamp; for a query that was never issued the call is an error and the variable is
left as it was. -/
def readQuery (gl : GLState) (times : TimeVar → Nat) (q : Nat) (var : TimeVar) : TimeVar → Nat :=
  match gl.queryResult q with
  | some v => Function.update times var v
  | none => times

/-! ## One iteration of the main loop -/

/-- The commands of a full-screen pass: clear, viewport, program, texture on unit 0, and the
three-vertex draw. The uniform location is always looked up in `programBlurOne`. -/
def fullScreenPass (dims : Int × Int) (prog : Program) (texture : GLuint) : List Cmd :=
  [Cmd.glClear,
   Cmd.glClearColor,
   Cmd.glViewport 0 0 dims.1 dims.2,
   Cmd.programBind prog,
   Cmd.glGetUniformLocation Program.programBlurOne Uniform.tex,
   Cmd.glActiveTexture0,
   Cmd.glBindTexture texture,
   Cmd.glUniform1i Program.programBlurOne Uniform.tex 0,
   Cmd.glDrawArrays 0 3]

/-- A timestamp query, issued only in a benchmarked frame:
`if (benchmarkThisFrame) glQueryCounter(queryID[q], GL_TIMESTAMP);`. -/
def stamp (bench : Bool) (q : Nat) : List Cmd :=
  if bench then [Cmd.glQueryCounter q] else []

/-- The block `if (numBlur == 1) { ... }`. -/
def blurOnePass {T : Type} (s : State T) (bench : Bool) : List Cmd :=
  fullScreenPass s.viewportDimensions Program.programBlurOne (s.screenTexture 0)
    ++ stamp bench 3

/-- The block `if (numBlur == 2) { ... }`: horizontal part into `frameBuffer[1]`, then the
vertical part after `glBindFramebuffer(GL_FRAMEBUFFER, 0)`. -/
def blurTwoPass {T : Type} (s : State T) (bench : Bool) : List Cmd :=
  [Cmd.glBindFramebuffer (s.frameBuffer 1)]
    ++ fullScreenPass s.viewportDimensions Program.programBlurTwoPart1 (s.screenTexture 0)
    ++ stamp bench 3
    ++ [Cmd.glBindFramebuffer 0]
    ++ fullScreenPass s.viewportDimensions Program.programBlurTwoPart2 (s.screenTexture 0)
    ++ stamp bench 4

/-- The commands of a frame up to, not including, the read-back block. -/
def drawCmds {T : Type} (ops : Collaborators T) (s : State T) (inp : Input T) : List Cmd :=
  let moveX := adjustMoveX inp.key1 inp.key2 s.moveX
  let numBlur := selectBlur inp.keyI inp.keyO inp.keyP s.numBlur
  let bench := inp.keyB
  let dims := s.viewportDimensions
  let screenW := dims.1
  stamp bench 0
    ++ (if numBlur > 0 then [Cmd.glBindFramebuffer (s.frameBuffer 0)] else [])
    ++ [Cmd.glClearColor, Cmd.glEnableDepthTest, Cmd.glClear]
    ++ stamp bench 1
    ++ [Cmd.glViewportIndexedf 0 0 0 (sizeX screenW) dims.2,
        Cmd.glViewportIndexedf 1 (v2startX screenW) 0 (sizeX screenW) dims.2,
        Cmd.setMatrix Uniform.cameraView1 (cameraView1 ops dims inp.camera),
        Cmd.setMatrix Uniform.cameraView2 (cameraView2 ops dims inp.camera s.rotY moveX)]
    ++ (drawScene ops s.transform sceneItems).1
    ++ stamp bench 2
    ++ [Cmd.glBindFramebuffer 0]
    ++ (if numBlur = 1 then blurOnePass s bench else [])
    ++ (if numBlur = 2 then blurTwoPass s bench else [])

/-- The value of `lastQuery` when the read-back block is reached. -/
def lastQueryAfter (bench : Bool) (numBlur lastQuery : Nat) : Nat :=
  let l1 := if bench then 2 else lastQuery
  let l2 := if numBlur = 1 ∧ bench then 3 else l1
  if numBlur = 2 ∧ bench then 4 else l2

/-- The five `glGetQueryObjectui64v` calls of the read-back block, applied to the variables. -/
def readBack (gl : GLState) (times : TimeVar → Nat) : TimeVar → Nat :=
  let t0 := readQuery gl times 0 TimeVar.startTime
  let t1 := readQuery gl t0 1 TimeVar.startEye1
  let t2 := readQuery gl t1 2 TimeVar.endEye1
  let t3 := readQuery gl t2 3 TimeVar.endBlur1
  readQuery gl t3 4 TimeVar.endBlur2

/-- The console output of the read-back block. -/
def report (numBlur : Nat) (t : TimeVar → Nat) : List Cmd :=
  [Cmd.systemCls,
   Cmd.printf Label.bothEyes (sub64 (t TimeVar.endEye1) (t TimeVar.startEye1))]
    ++ (if numBlur = 0 then
          [Cmd.printf Label.fullFrame (sub64 (t TimeVar.endEye1) (t TimeVar.startTime))]
        else [])
    ++ (if numBlur = 1 then
          [Cmd.printf Label.blurEyes (sub64 (t TimeVar.endBlur1) (t TimeVar.endEye1)),
           Cmd.printf Label.fullFrame (sub64 (t TimeVar.endBlur1) (t TimeVar.startTime))]
        else [])
    ++ (if numBlur = 2 then
          [Cmd.printf Label.blurPart1 (sub64 (t TimeVar.endBlur1) (t TimeVar.endEye1)),
           Cmd.printf Label.blurPart2 (sub64 (t TimeVar.endBlur2) (t TimeVar.endBlur1)),
           Cmd.printf Label.blurTotal (sub64 (t TimeVar.endBlur2) (t TimeVar.endEye1)),
           Cmd.printf Label.fullFrame (sub64 (t TimeVar.endBlur2) (t TimeVar.startTime))]
        else [])

/-- The block `if (benchmarkThisFrame) { ... }` after the blur passes: poll the availability of
`queryID[lastQuery]` until it is reported (`polls` unsuccessful polls and the successful one),
read the five results, print. -/
def collectCmds (polls lastQuery numBlur : Nat) (t : TimeVar → Nat) : List Cmd :=
  List.replicate (polls + 1) (Cmd.glGetQueryAvailable lastQuery)
    ++ [Cmd.glGetQueryResult 0 TimeVar.startTime,
        Cmd.glGetQueryResult 1 TimeVar.startEye1,
        Cmd.glGetQueryResult 2 TimeVar.endEye1,
        Cmd.glGetQueryResult 3 TimeVar.endBlur1,
        Cmd.glGetQueryResult 4 TimeVar.endBlur2]
    ++ report numBlur t

/-- The variables `startTime .. endBlur2` at the end of a frame. -/
def timesAfter {T : Type} (ops : Collaborators T) (s : State T) (inp : Input T) :
    TimeVar → Nat :=
  if inp.keyB then
    readBack ((drawCmds ops s inp).foldl (execGL inp.gpuTime) s.gl) s.times
  else s.times

/-- The commands issued by one iteration of the main loop (after the exit test). -/
def frameCmds {T : Type} (ops : Collaborators T) (s : State T) (inp : Input T) : List Cmd :=
  let numBlur := selectBlur inp.keyI inp.keyO inp.keyP s.numBlur
  drawCmds ops s inp
    ++ (if inp.keyB then
          collectCmds inp.gpuPolls (lastQueryAfter inp.keyB numBlur s.lastQuery) numBlur
            (timesAfter ops s inp)
        else [])
    ++ [Cmd.glfwSwapBuffers, Cmd.glfwPollEvents]

/-- The state after one iteration of the main loop; the resize notifications are delivered by
`glfwPollEvents` at its end. -/
def frameState {T : Type} (ops : Collaborators T) (s : State T) (inp : Input T) : State T :=
  let numBlur := selectBlur inp.keyI inp.keyO inp.keyP s.numBlur
  let s1 : State T :=
    { s with moveX := adjustMoveX inp.key1 inp.key2 s.moveX,
             numBlur := numBlur,
             lastQuery := lastQueryAfter inp.keyB numBlur s.lastQuery,
             times := timesAfter ops s inp,
             transform := (drawScene ops s.transform sceneItems).2,
             gl := (frameCmds ops s inp).foldl (execGL inp.gpuTime) s.gl }
  inp.resizes.foldl (fun st wh => resizeCallback wh.1 wh.2 st) s1

/-- One iteration of the main loop: the commands issued and the state reached. -/
def frame {T : Type} (ops : Collaborators T) (s : State T) (inp : Input T) :
    List Cmd × State T :=
  (frameCmds ops s inp, frameState ops s inp)

/-- The main loop over a sequence of inputs: it stops at the first input on which the window
is to close or escape is pressed; it returns the commands of each frame run and the state
reached. -/
def mainLoop {T : Type} (ops : Collaborators T) : State T → List (Input T) →
    List (List Cmd) × State T
  | s, [] => ([], s)
  | s, inp :: rest =>
    if inp.shouldClose || inp.keyEscape then ([], s)
    else
      ((frame ops s inp).1 :: (mainLoop ops (frame ops s inp).2 rest).1,
       (mainLoop ops (frame ops s inp).2 rest).2)

/-- The state at the entry of the main loop: the initial values of the globals and locals,
then `MakeRT(0); MakeRT(1);` and `glGenQueries(5, queryID)` (no query has a result yet).
`gl` is the OpenGL state left by the asset loading, `transform` and `times` the initial
contents of `transform` and of the uninitialised timestamp variables. -/
def startup {T : Type} (gl : GLState) (transform : T) (times : TimeVar → Nat) : State T :=
  let s0 : State T :=
    { viewportDimensions := (1366, 768),
      frameBuffer := fun _ => 0,
      screenTexture := fun _ => 0,
      renderBuffer := fun _ => 0,
      rotY := 0,
      moveX := -3 / 10,
      numBlur := 1,
      lastQuery := 0,
      times := times,
      transform := transform,
      gl := gl }
  let s2 := MakeRT 1 (MakeRT 0 s0)
  { s2 with gl := { s2.gl with queryResult := fun _ => none } }

/-! ## Observations on a command sequence -/

/-- The query a command issues, if it is a `glQueryCounter`. -/
def issuedQuery : Cmd → Option Nat
  | Cmd.glQueryCounter q => some q
  | _ => none

/-- The query a command reads the result of, if it is a result read-back. -/
def readQueryOf : Cmd → Option Nat
  | Cmd.glGetQueryResult q _ => some q
  | _ => none

/-- The query a command polls the availability of, if it is an availability poll. -/
def polledQuery : Cmd → Option Nat
  | Cmd.glGetQueryAvailable q => some q
  | _ => none

/-- The viewport rectangle `(index, x, y, w, h)` a command sets, if it is a
`glViewportIndexedf`. -/
def viewportOf : Cmd → Option (Nat × Int × Int × Int × Int)
  | Cmd.glViewportIndexedf i x y w h => some (i, x, y, w, h)
  | _ => none

/-- The timestamp queries issued, in order. -/
def issuedQueries (cs : List Cmd) : List Nat := cs.filterMap issuedQuery

/-- The queries whose result is read back, in order. -/
def readQueries (cs : List Cmd) : List Nat := cs.filterMap readQueryOf

/-- The queries whose availability flag is polled, in order. -/
def polledQueries (cs : List Cmd) : List Nat := cs.filterMap polledQuery

/-- The indexed viewport rectangles set, in order. -/
def viewportRegions (cs : List Cmd) : List (Nat × Int × Int × Int × Int) :=
  cs.filterMap viewportOf

/-- Column `x` lies in the region that starts at `start` and is `width` wide. -/
def inRegion (start width x : Int) : Prop := start ≤ x ∧ x < start + width

/-- Timestamp-query issuance, query read-back and console output. -/
def isProfiling : Cmd → Bool
  | Cmd.glQueryCounter _ => true
  | Cmd.glGetQueryAvailable _ => true
  | Cmd.glGetQueryResult _ _ => true
  | Cmd.systemCls => true
  | Cmd.printf _ _ => true
  | _ => false

/-- The commands of the read-back block: availability polls, result reads, console output. -/
def isReadback : Cmd → Bool
  | Cmd.glGetQueryAvailable _ => true
  | Cmd.glGetQueryResult _ _ => true
  | Cmd.systemCls => true
  | Cmd.printf _ _ => true
  | _ => false

/-- The rendering commands of a sequence: everything that is not profiling. -/
def renderingCmds (cs : List Cmd) : List Cmd :=
  cs.filter (fun c => !isProfiling c)

/-- A draw call together with the framebuffer it writes to; for a full-screen pass also the
texture bound on unit 0 that it samples. -/
inductive Draw
  | scene (mesh : MeshId) (framebuffer : GLuint)
  | fullScreen (framebuffer : GLuint) (texture : Option GLuint)
  deriving DecidableEq, Repr

/-- The draw call a command makes in OpenGL state `gl`, if it is one. -/
def drawOf (gl : GLState) : Cmd → List Draw
  | Cmd.meshDraw m => [Draw.scene m gl.boundFramebuffer]
  | Cmd.glDrawArrays _ _ => [Draw.fullScreen gl.boundFramebuffer gl.boundTexture]
  | _ => []

/-- The draw calls of a command sequence run from OpenGL state `gl`. -/
def drawLog (gpuTime : Nat → Nat) : GLState → List Cmd → List Draw
  | _, [] => []
  | gl, c :: cs => drawOf gl c ++ drawLog gpuTime (execGL gpuTime gl c) cs

/-- The scene draw list drawn into framebuffer `fb`. -/
def sceneDraws (fb : GLuint) : List Draw :=
  sceneItems.map (fun it => Draw.scene it.mesh fb)

/-- The OpenGL state without the recorded query results. -/
def GLState.forgetQueries (gl : GLState) : GLState :=
  { gl with queryResult := fun _ => none }

/-- The program state without what only profiling writes: `lastQuery`, the timestamp
variables and the recorded query results. -/
def State.forgetProfiling {T : Type} (s : State T) : State T :=
  { s with lastQuery := 0, times := fun _ => 0, gl := s.gl.forgetQueries }

/-- The framebuffer bound when the first buffer swap of a command sequence is reached. -/
def framebufferAtSwap (gpuTime : Nat → Nat) : GLState → List Cmd → Option GLuint
  | _, [] => none
  | gl, Cmd.glfwSwapBuffers :: _ => some gl.boundFramebuffer
  | gl, c :: cs => framebufferAtSwap gpuTime (execGL gpuTime gl c) cs

/-- The line a command prints, if it is a `printf`: the label and the nanoseconds. -/
def printedOf : Cmd → Option (Label × Nat)
  | Cmd.printf l n => some (l, n)
  | _ => none

/-- The timing lines printed, in order. -/
def printed (cs : List Cmd) : List (Label × Nat) := cs.filterMap printedOf

/-- The values printed under label `l`, in order. -/
def reported (l : Label) (cs : List Cmd) : List Nat :=
  (printed cs).filterMap (fun p => if p.1 = l then some p.2 else none)

/-- The timestamp the GPU records for `queryID[q]` in a frame with input `inp`. -/
def timestamp {T : Type} (inp : Input T) (q : Nat) : Nat := u64 (inp.gpuTime q)

/-- The buffer swap, if the command is one. -/
def swapOf : Cmd → Option Unit
  | Cmd.glfwSwapBuffers => some ()
  | _ => none

/-- The framebuffer a full-screen pass was drawn into, if the draw is one. -/
def fullScreenTarget : Draw → Option GLuint
  | Draw.fullScreen fb _ => some fb
  | _ => none

/-- The framebuffers the full-screen passes of a draw log were drawn into, in order. -/
def fullScreenTargets (ds : List Draw) : List GLuint := ds.filterMap fullScreenTarget

/-- The states in which the iterations of the main loop start, in order. -/
def frameStarts {T : Type} (ops : Collaborators T) : State T → List (Input T) → List (State T)
  | _, [] => []
  | s, inp :: rest =>
    if inp.shouldClose || inp.keyEscape then []
    else s :: frameStarts ops (frame ops s inp).2 rest

/-- The iterations of the main loop that are run, in order: the state each starts in and the
input it receives. -/
def frameRuns {T : Type} (ops : Collaborators T) :
    State T → List (Input T) → List (State T × Input T)
  | _, [] => []
  | s, inp :: rest =>
    if inp.shouldClose || inp.keyEscape then []
    else (s, inp) :: frameRuns ops (frame ops s inp).2 rest

/-- The translation matrix `T(v)`; the `translate(m, v)` of the specification is `m * T(v)`. -/
def translationMatrix (v : Vec3) : Mat4 :=
  !![1, 0, 0, v.1;
     0, 1, 0, v.2.1;
     0, 0, 1, v.2.2;
     0, 0, 0, 1]

/-- The matrix a command uploads under the uniform `name`, if it does. -/
def uploadOf (name : Uniform) : Cmd → Option Mat4
  | Cmd.setMatrix n m => if n = name then some m else none
  | _ => none

/-- The matrices uploaded under the uniform `name`, in order. -/
def uploads (name : Uniform) (cs : List Cmd) : List Mat4 := cs.filterMap (uploadOf name)

/-! ## A concrete collaborator

An exact instance of the collaborators over the rationals, used to run the definitions on
concrete inputs: transforms made of a position, a rotation about the Y axis kept as the pair
`(cos, sin)`, and a uniform scale. Angles are given by the tangent of the half angle, which
makes every rotation rational. -/

/-- A position, a yaw kept as `(cosY, sinY)`, and a scale. -/
structure YawTransform where
  position : Vec3
  cosY : ℚ
  sinY : ℚ
  scale : ℚ

/-- Cosine of the angle whose half-angle tangent is `a`. -/
def cosHalfTan (a : ℚ) : ℚ := (1 - a * a) / (1 + a * a)

/-- Sine of the angle whose half-angle tangent is `a`. -/
def sinHalfTan (a : ℚ) : ℚ := 2 * a / (1 + a * a)

/-- The matrix `translate(position) * rotateY * scale`. -/
def YawTransform.matrix (t : YawTransform) : Mat4 :=
  !![t.cosY * t.scale, 0, t.sinY * t.scale, t.position.1;
     0, t.scale, 0, t.position.2.1;
     -t.sinY * t.scale, 0, t.cosY * t.scale, t.position.2.2;
     0, 0, 0, 1]

/-- The inverse of `YawTransform.matrix`. -/
def YawTransform.inverseMatrix (t : YawTransform) : Mat4 :=
  !![t.cosY / t.scale, 0, -t.sinY / t.scale,
       -(t.cosY * t.position.1 - t.sinY * t.position.2.2) / t.scale;
     0, 1 / t.scale, 0, -t.position.2.1 / t.scale;
     t.sinY / t.scale, 0, t.cosY / t.scale,
       -(t.sinY * t.position.1 + t.cosY * t.position.2.2) / t.scale;
     0, 0, 0, 1]

/-- The rotation about the Y axis by the angle whose half-angle tangent is `a`. -/
def yawRotation (a : ℚ) : Mat4 :=
  !![cosHalfTan a, 0, sinHalfTan a, 0;
     0, 1, 0, 0;
     -sinHalfTan a, 0, cosHalfTan a, 0;
     0, 0, 0, 1]

/-- The collaborators over `YawTransform`; `SetRotation` keeps the yaw component only. -/
def yawCollaborators : Collaborators YawTransform where
  SetPosition := fun t p => { t with position := p }
  SetRotation := fun t r => { t with cosY := cosHalfTan r.2.1, sinY := sinHalfTan r.2.1 }
  SetScale := fun t k => { t with scale := k }
  RotateY := fun t a =>
    { t with cosY := t.cosY * cosHalfTan a - t.sinY * sinHalfTan a,
             sinY := t.sinY * cosHalfTan a + t.cosY * sinHalfTan a }
  GetMatrix := YawTransform.matrix
  GetInverseMatrix := YawTransform.inverseMatrix
  perspective := fun fovy aspect near far =>
    !![2 / (fovy * aspect), 0, 0, 0;
       0, 2 / fovy, 0, 0;
       0, 0, (far + near) / (near - far), 2 * far * near / (near - far);
       0, 0, -1, 0]

/-- A camera at the origin facing -Z. -/
def originCamera : YawTransform :=
  { position := (0, 0, 0), cosY := 1, sinY := 0, scale := 1 }

/-- A camera at (1, 2, 3), turned a quarter turn about Y. -/
def turnedCamera : YawTransform :=
  { position := (1, 2, 3), cosY := 0, sinY := 1, scale := 1 }

/-- An OpenGL state in which no object has been created. -/
def freshGL : GLState :=
  { genFramebuffers := 0, genTextures := 0, genRenderbuffers := 0,
    boundFramebuffer := 0, boundTexture := some 0, boundRenderbuffer := 0,
    texImage := fun _ => none, texParameter := fun _ _ => none,
    renderbufferStorage := fun _ => none,
    colorAttachment := fun _ => none, depthStencilAttachment := fun _ => none,
    queryResult := fun _ => none }

/-- An input with no key pressed, the camera at the origin, no resize, and a GPU that stamps
query `q` with `1000 * (q + 1)` and reports availability at once. -/
def idleInput : Input YawTransform :=
  { shouldClose := false, keyEscape := false, key1 := false, key2 := false,
    keyI := false, keyO := false, keyP := false, keyB := false,
    camera := originCamera, resizes := [],
    gpuTime := fun q => 1000 * (q + 1), gpuPolls := 0 }

/-- The state at the entry of the main loop on a fresh OpenGL context. -/
def startState : State YawTransform :=
  startup freshGL originCamera (fun _ => 0)

/-! ## Lemmas on the command stream -/

section Lemmas

variable {T : Type}

theorem filterMap_drawScene {β : Type} (f : Cmd → Option β)
    (h1 : ∀ n m, f (Cmd.setMatrix n m) = none) (h2 : ∀ n t, f (Cmd.setTexture n t) = none)
    (h3 : f Cmd.materialBind = none) (h4 : ∀ m, f (Cmd.meshDraw m) = none)
    (ops : Collaborators T) (t : T) (items : List Item) :
    (drawScene ops t items).1.filterMap f = [] := by
  induction items generalizing t with
  | nil => simp [drawScene]
  | cons it rest ih => simp [drawScene, drawItem, List.filterMap_append, h1, h2, h3, h4, ih]

theorem renderingCmds_drawScene (ops : Collaborators T) (t : T) (items : List Item) :
    renderingCmds (drawScene ops t items).1 = (drawScene ops t items).1 := by
  unfold renderingCmds
  induction items generalizing t with
  | nil => simp [drawScene]
  | cons it rest ih =>
    simp only [drawScene, List.filter_append, ih]
    simp [drawItem, isProfiling]

theorem drawLog_append (g : Nat → Nat) (gl : GLState) (a b : List Cmd) :
    drawLog g gl (a ++ b) = drawLog g gl a ++ drawLog g (a.foldl (execGL g) gl) b := by
  induction a generalizing gl with
  | nil => simp [drawLog]
  | cons c cs ih => simp [drawLog, ih, List.append_assoc]

theorem foldl_drawScene_boundFramebuffer (g : Nat → Nat) (ops : Collaborators T) (t : T)
    (items : List Item) (gl : GLState) :
    ((drawScene ops t items).1.foldl (execGL g) gl).boundFramebuffer = gl.boundFramebuffer := by
  induction items generalizing t gl with
  | nil => simp [drawScene]
  | cons it rest ih => simp [drawScene, drawItem, List.foldl_append, ih, execGL]

theorem drawLog_drawScene (g : Nat → Nat) (ops : Collaborators T) (t : T)
    (items : List Item) (gl : GLState) :
    drawLog g gl (drawScene ops t items).1
      = items.map (fun it => Draw.scene it.mesh gl.boundFramebuffer) := by
  induction items generalizing t gl with
  | nil => simp [drawScene, drawLog]
  | cons it rest ih => simp [drawScene, drawItem, drawLog, drawOf, ih, execGL]

theorem drawLog_profiling (g : Nat → Nat) (cs : List Cmd) (gl : GLState)
    (h : ∀ c ∈ cs, isProfiling c = true) : drawLog g gl cs = [] := by
  induction cs generalizing gl with
  | nil => rfl
  | cons c cs ih =>
    have hc : isProfiling c = true := h c (List.mem_cons_self _ _)
    have hd : drawOf gl c = [] := by
      cases c <;> first | rfl | (simp [isProfiling] at hc)
    simp [drawLog, hd, ih _ (fun c hc => h c (List.mem_cons_of_mem _ hc))]

theorem collectCmds_readback (p l n : Nat) (t : TimeVar → Nat) :
    ∀ c ∈ collectCmds p l n t, isReadback c = true := by
  intro c hc
  simp only [collectCmds, report, List.mem_append, List.mem_replicate] at hc
  rcases hc with ((⟨_, rfl⟩ | hc) | hc)
  · rfl
  · simp at hc
    rcases hc with rfl | rfl | rfl | rfl | rfl <;> rfl
  · rcases hc with ((hc | hc) | hc) | hc
    · simp at hc
      rcases hc with rfl | rfl <;> rfl
    · split at hc
      · simp at hc; subst hc; rfl
      · simp at hc
    · split at hc
      · simp at hc; rcases hc with rfl | rfl <;> rfl
      · simp at hc
    · split at hc
      · simp at hc; rcases hc with rfl | rfl | rfl | rfl <;> rfl
      · simp at hc

theorem isProfiling_of_isReadback (c : Cmd) (h : isReadback c = true) : isProfiling c = true := by
  cases c <;> first | rfl | (simp [isReadback] at h)

theorem execGL_of_isReadback (g : Nat → Nat) (gl : GLState) (c : Cmd)
    (h : isReadback c = true) : execGL g gl c = gl := by
  cases c <;> first | rfl | (simp [isReadback] at h)

theorem foldl_execGL_readback (g : Nat → Nat) (cs : List Cmd) (gl : GLState)
    (h : ∀ c ∈ cs, isReadback c = true) : cs.foldl (execGL g) gl = gl := by
  induction cs generalizing gl with
  | nil => rfl
  | cons c cs ih =>
    rw [List.foldl_cons, execGL_of_isReadback g gl c (h c (List.mem_cons_self _ _))]
    exact ih gl (fun c hc => h c (List.mem_cons_of_mem _ hc))

theorem foldl_execGL_collectCmds (g : Nat → Nat) (gl : GLState) (p l n : Nat)
    (t : TimeVar → Nat) : (collectCmds p l n t).foldl (execGL g) gl = gl :=
  foldl_execGL_readback g _ gl (collectCmds_readback p l n t)

theorem collectCmds_profiling (p l n : Nat) (t : TimeVar → Nat) :
    ∀ c ∈ collectCmds p l n t, isProfiling c = true :=
  fun c hc => isProfiling_of_isReadback c (collectCmds_readback p l n t c hc)

theorem drawLog_collectCmds (g : Nat → Nat) (gl : GLState) (p l n : Nat) (t : TimeVar → Nat) :
    drawLog g gl (collectCmds p l n t) = [] :=
  drawLog_profiling g _ gl (collectCmds_profiling p l n t)

theorem drawLog_replicate_poll (g : Nat → Nat) (gl : GLState) (n q : Nat) :
    drawLog g gl (List.replicate n (Cmd.glGetQueryAvailable q)) = [] :=
  drawLog_profiling g _ gl (fun c hc => by
    rw [List.eq_of_mem_replicate hc]; rfl)

/-- The draw calls of a frame: the scene goes to `frameBuffer[0]` when a blur mode is selected
and to whatever framebuffer is bound when the frame starts otherwise; then the full-screen
passes of the selected mode. -/
theorem drawLog_frameCmds (g : Nat → Nat) (ops : Collaborators T) (s : State T) (inp : Input T) :
    drawLog g s.gl (frameCmds ops s inp)
      = sceneDraws (if 0 < selectBlur inp.keyI inp.keyO inp.keyP s.numBlur then s.frameBuffer 0
                    else s.gl.boundFramebuffer)
        ++ (if selectBlur inp.keyI inp.keyO inp.keyP s.numBlur = 1 then
              [Draw.fullScreen 0 (some (s.screenTexture 0))] else [])
        ++ (if selectBlur inp.keyI inp.keyO inp.keyP s.numBlur = 2 then
              [Draw.fullScreen (s.frameBuffer 1) (some (s.screenTexture 0)),
               Draw.fullScreen 0 (some (s.screenTexture 0))] else []) := by
  unfold frameCmds drawCmds sceneDraws
  generalize sceneItems = items
  generalize hsel : selectBlur inp.keyI inp.keyO inp.keyP s.numBlur = n
  have hn : n = 0 ∨ n = 1 ∨ n = 2 ∨ 3 ≤ n := by omega
  have h3 : 3 ≤ n → 0 < n ∧ n ≠ 1 ∧ n ≠ 2 ∧ n ≠ 0 := by omega
  cases hb : inp.keyB <;> rcases hn with h | h | h | h
  all_goals first
    | subst h
    | obtain ⟨h31, h32, h33, h30⟩ := h3 h
  all_goals
    simp [drawLog_collectCmds, drawLog_replicate_poll, blurOnePass, blurTwoPass, fullScreenPass, stamp, drawLog_append, drawLog_drawScene, foldl_drawScene_boundFramebuffer, drawLog, drawOf, execGL, glBindFramebuffer, glBindTexture, *]
theorem foldl_execGL_drawScene (g : Nat → Nat) (ops : Collaborators T) (t : T)
    (items : List Item) (gl : GLState) :
    (drawScene ops t items).1.foldl (execGL g) gl
      = { gl with boundTexture := if items.isEmpty then gl.boundTexture else none } := by
  induction items generalizing t gl with
  | nil => simp [drawScene]
  | cons it rest ih =>
    simp only [drawScene, List.foldl_append, ih]
    cases rest <;> simp [drawItem, execGL]

theorem foldl_resizeCallback (rs : List (Int × Int)) (s : State T) :
    rs.foldl (fun st wh => resizeCallback wh.1 wh.2 st) s
      = { s with viewportDimensions := rs.foldl (fun _ wh => wh) s.viewportDimensions } := by
  induction rs generalizing s with
  | nil => simp
  | cons r rest ih =>
    simp only [List.foldl_cons]
    rw [ih]
    simp [resizeCallback]

theorem startup_handles (gl : GLState) (transform : T) (times : TimeVar → Nat) :
    (startup gl transform times).frameBuffer 0 = gl.genFramebuffers + 1
    ∧ (startup gl transform times).frameBuffer 1 = gl.genFramebuffers + 2
    ∧ (startup gl transform times).screenTexture 0 = gl.genTextures + 1
    ∧ (startup gl transform times).screenTexture 1 = gl.genTextures + 2
    ∧ (startup gl transform times).renderBuffer 0 = gl.genRenderbuffers + 1
    ∧ (startup gl transform times).renderBuffer 1 = gl.genRenderbuffers + 2 := by
  simp [startup, MakeRT, glGenFramebuffers, glGenTextures, glGenRenderbuffers, glBindFramebuffer,
    glBindTexture, glBindRenderbuffer, glTexImage2D, glTexParameteri, glRenderbufferStorage,
    glFramebufferTexture2D, glFramebufferRenderbuffer, Function.update]

theorem startup_vars (gl : GLState) (transform : T) (times : TimeVar → Nat) :
    (startup gl transform times).viewportDimensions = (1366, 768)
    ∧ (startup gl transform times).numBlur = 1
    ∧ (startup gl transform times).lastQuery = 0
    ∧ (startup gl transform times).moveX = -3 / 10
    ∧ (startup gl transform times).rotY = 0
    ∧ (startup gl transform times).times = times
    ∧ (startup gl transform times).transform = transform := by
  simp [startup, MakeRT]

theorem startup_gl (gl : GLState) (transform : T) (times : TimeVar → Nat) :
    (startup gl transform times).gl.boundFramebuffer = gl.genFramebuffers + 2
    ∧ (startup gl transform times).gl.queryResult = (fun _ => none)
    ∧ (startup gl transform times).gl.texImage (gl.genTextures + 1) = some (1366, 768)
    ∧ (startup gl transform times).gl.texImage (gl.genTextures + 2) = some (1366, 768)
    ∧ (startup gl transform times).gl.renderbufferStorage (gl.genRenderbuffers + 1)
        = some (1366, 768)
    ∧ (startup gl transform times).gl.renderbufferStorage (gl.genRenderbuffers + 2)
        = some (1366, 768) := by
  simp [startup, MakeRT, glGenFramebuffers, glGenTextures, glGenRenderbuffers, glBindFramebuffer,
    glBindTexture, glBindRenderbuffer, glTexImage2D, glTexParameteri, glRenderbufferStorage,
    glFramebufferTexture2D, glFramebufferRenderbuffer, Function.update]

theorem foldl_execGL_replicate_poll (g : Nat → Nat) (gl : GLState) (n q : Nat) :
    (List.replicate n (Cmd.glGetQueryAvailable q)).foldl (execGL g) gl = gl :=
  foldl_execGL_readback g _ gl (fun c hc => by
    rw [List.eq_of_mem_replicate hc]; rfl)

theorem foldl_execGL_objects (g : Nat → Nat) (cs : List Cmd) (gl : GLState) :
    (cs.foldl (execGL g) gl).texImage = gl.texImage
    ∧ (cs.foldl (execGL g) gl).renderbufferStorage = gl.renderbufferStorage
    ∧ (cs.foldl (execGL g) gl).colorAttachment = gl.colorAttachment
    ∧ (cs.foldl (execGL g) gl).depthStencilAttachment = gl.depthStencilAttachment := by
  induction cs generalizing gl with
  | nil => simp
  | cons c cs ih =>
    rw [List.foldl_cons]
    obtain ⟨h1, h2, h3, h4⟩ := ih (execGL g gl c)
    rw [h1, h2, h3, h4]
    cases c <;> simp [execGL, glBindFramebuffer, glBindTexture]

theorem execGL_forgetQueries_rendering (g g' : Nat → Nat) (gl : GLState) (c : Cmd)
    (h : isProfiling c = false) :
    (execGL g gl c).forgetQueries = execGL g' gl.forgetQueries c := by
  cases c <;> first | rfl | (simp [isProfiling] at h)

theorem execGL_forgetQueries_profiling (g : Nat → Nat) (gl : GLState) (c : Cmd)
    (h : isProfiling c = true) :
    (execGL g gl c).forgetQueries = gl.forgetQueries := by
  cases c <;> first | rfl | (simp [isProfiling] at h)

theorem foldl_execGL_forgetQueries (g g' : Nat → Nat) (cs : List Cmd) (gl gl' : GLState)
    (h : gl.forgetQueries = gl'.forgetQueries) :
    (cs.foldl (execGL g) gl).forgetQueries
      = ((renderingCmds cs).foldl (execGL g') gl').forgetQueries := by
  induction cs generalizing gl gl' with
  | nil => simpa [renderingCmds] using h
  | cons c cs ih =>
    cases hc : isProfiling c
    · have hr : renderingCmds (c :: cs) = c :: renderingCmds cs := by
        simp [renderingCmds, hc]
      rw [hr, List.foldl_cons, List.foldl_cons]
      apply ih
      rw [execGL_forgetQueries_rendering g g' gl c hc, h,
        ← execGL_forgetQueries_rendering g' g' gl' c hc]
    · have hr : renderingCmds (c :: cs) = renderingCmds cs := by
        simp [renderingCmds, hc]
      rw [hr, List.foldl_cons]
      apply ih
      rw [execGL_forgetQueries_profiling g gl c hc, h]

theorem renderingCmds_append (a b : List Cmd) :
    renderingCmds (a ++ b) = renderingCmds a ++ renderingCmds b := by
  simp [renderingCmds]

theorem renderingCmds_collectCmds (p l n : Nat) (t : TimeVar → Nat) :
    renderingCmds (collectCmds p l n t) = [] := by
  unfold renderingCmds
  rw [List.filter_eq_nil_iff]
  intro c hc
  simp [collectCmds_profiling p l n t c hc]

/-- Erasing the profiling commands of a frame gives the frame that is not benchmarked. -/
theorem renderingCmds_frameCmds (ops : Collaborators T) (s : State T) (inp : Input T) (b : Bool) :
    renderingCmds (frameCmds ops s { inp with keyB := b })
      = frameCmds ops s { inp with keyB := false } := by
  unfold frameCmds drawCmds
  generalize sceneItems = items
  generalize selectBlur inp.keyI inp.keyO inp.keyP s.numBlur = n
  cases b
  all_goals by_cases h1 : n = 1 <;> by_cases h2 : n = 2 <;> by_cases h0 : 0 < n
  all_goals
    simp only [renderingCmds_append, renderingCmds_drawScene, renderingCmds_collectCmds,
      h0, h1, h2, if_true, if_false, List.append_nil, Bool.false_eq_true]
  all_goals
    simp [blurOnePass, blurTwoPass, fullScreenPass, stamp, renderingCmds, isProfiling]

/-- Translating by the zero vector changes nothing. -/
theorem translate_zero (m : Mat4) : translate m (0, 0, 0) = m := by
  funext r c
  by_cases hc : c = 3
  · subst hc; simp [translate]
  · simp [translate, hc]

/-- The 45% / 55% split of a width within the `int` range. -/
theorem split_bounds (w : Int) (h0 : 0 ≤ w) (hov : 55 * w ≤ 2147483647) :
    0 ≤ sizeX w ∧ sizeX w ≤ v2startX w ∧ v2startX w + sizeX w ≤ w := by
  have h1 : wrap32 (45 * w) = 45 * w := by unfold wrap32; omega
  have h2 : wrap32 (55 * w) = 55 * w := by unfold wrap32; omega
  simp only [sizeX, v2startX, h1, h2]
  rw [Int.tdiv_eq_ediv (by omega) (by omega), Int.tdiv_eq_ediv (by omega) (by omega)]
  omega

theorem viewportRegions_frameCmds (ops : Collaborators T) (s : State T) (inp : Input T) :
    viewportRegions (frameCmds ops s inp)
      = [(0, 0, 0, sizeX s.viewportDimensions.1, s.viewportDimensions.2),
         (1, v2startX s.viewportDimensions.1, 0, sizeX s.viewportDimensions.1,
           s.viewportDimensions.2)] := by
  unfold frameCmds drawCmds
  generalize sceneItems = items
  generalize selectBlur inp.keyI inp.keyO inp.keyP s.numBlur = n
  cases inp.keyB
  all_goals by_cases h1 : n = 1 <;> by_cases h2 : n = 2 <;> by_cases h0 : 0 < n
  all_goals
    simp [viewportRegions, List.filterMap_append, filterMap_drawScene, viewportOf, collectCmds,
      report, blurOnePass, blurTwoPass, fullScreenPass, stamp, h0, h1, h2,
      List.filterMap_replicate]

theorem frameState_moveX (ops : Collaborators T) (s : State T) (inp : Input T) :
    (frameState ops s inp).moveX = adjustMoveX inp.key1 inp.key2 s.moveX := by
  simp [frameState, foldl_resizeCallback]

theorem yawRotation_zero : yawRotation 0 = 1 := by
  ext i j
  fin_cases i <;> fin_cases j <;> simp [yawRotation, cosHalfTan, sinHalfTan, Matrix.vecHead, Matrix.vecTail]

theorem matrix_originCamera : YawTransform.matrix originCamera = 1 := by
  ext i j
  fin_cases i <;> fin_cases j <;> simp [YawTransform.matrix, originCamera, Matrix.vecHead, Matrix.vecTail]

theorem inverseMatrix_originCamera : YawTransform.inverseMatrix originCamera = 1 := by
  ext i j
  fin_cases i <;> fin_cases j <;> simp [YawTransform.inverseMatrix, originCamera, Matrix.vecHead, Matrix.vecTail]

theorem rotateY_zero_originCamera : yawCollaborators.RotateY originCamera 0 = originCamera := by
  simp [yawCollaborators, originCamera, cosHalfTan, sinHalfTan]

/-- The blur mode stays in `{0, 1, 2}`: the keys only assign 0, 1 or 2. -/
theorem selectBlur_le_two (keyI keyO keyP : Bool) (n : Nat) (h : n ≤ 2) :
    selectBlur keyI keyO keyP n ≤ 2 := by
  unfold selectBlur
  cases keyI <;> cases keyO <;> cases keyP <;> simp [h]

/-- Every frame ends with the default framebuffer bound. -/
theorem frameState_boundFramebuffer (ops : Collaborators T) (s : State T) (inp : Input T) :
    (frameState ops s inp).gl.boundFramebuffer = 0 := by
  unfold frameState frameCmds drawCmds
  rw [foldl_resizeCallback]
  generalize sceneItems = items
  generalize selectBlur inp.keyI inp.keyO inp.keyP s.numBlur = n
  cases inp.keyB
  all_goals by_cases h1 : n = 1 <;> by_cases h2 : n = 2 <;> by_cases h0 : 0 < n
  all_goals
    simp only [List.foldl_append, foldl_execGL_collectCmds, foldl_execGL_drawScene,
      h0, h1, h2, if_true, if_false, Bool.false_eq_true]
  all_goals
    simp [blurOnePass, blurTwoPass, fullScreenPass, stamp, execGL, glBindFramebuffer,
      glBindTexture]
/-- Reduction to 64 bits is idempotent. -/
theorem u64_u64 (n : Nat) : u64 (u64 n) = u64 n := by
  unfold u64; omega

/-- For timestamps in range that do not decrease, `sub64` is the plain difference. -/
theorem sub64_of_le (a b : Nat) (hb : b ≤ a) (ha : a < 18446744073709551616) :
    sub64 a b = a - b := by
  unfold sub64 u64; omega

/-- What each timestamp variable holds after the five result reads. -/
theorem readBack_apply (gl : GLState) (times : TimeVar → Nat) :
    readBack gl times TimeVar.startTime = (gl.queryResult 0).getD (times TimeVar.startTime)
    ∧ readBack gl times TimeVar.startEye1 = (gl.queryResult 1).getD (times TimeVar.startEye1)
    ∧ readBack gl times TimeVar.endEye1 = (gl.queryResult 2).getD (times TimeVar.endEye1)
    ∧ readBack gl times TimeVar.endBlur1 = (gl.queryResult 3).getD (times TimeVar.endBlur1)
    ∧ readBack gl times TimeVar.endBlur2 = (gl.queryResult 4).getD (times TimeVar.endBlur2)
    ∧ readBack gl times TimeVar.endEye2 = times TimeVar.endEye2 := by
  unfold readBack readQuery
  cases gl.queryResult 0 <;> cases gl.queryResult 1 <;> cases gl.queryResult 2 <;>
    cases gl.queryResult 3 <;> cases gl.queryResult 4 <;> simp [Function.update]

/-- In a benchmarked frame every query up to `2 + numBlur` has the timestamp of this frame when
the read-back block is reached. -/
theorem queryResult_drawCmds (ops : Collaborators T) (s : State T) (inp : Input T)
    (hb : inp.keyB = true) (n : Nat)
    (hsel : selectBlur inp.keyI inp.keyO inp.keyP s.numBlur = n) (hn : n ≤ 2) (q : Nat)
    (hq : q ≤ 2 + n) :
    ((drawCmds ops s inp).foldl (execGL inp.gpuTime) s.gl).queryResult q
      = some (timestamp inp q) := by
  unfold drawCmds
  generalize sceneItems = items
  rw [hsel]
  have hn' : n = 0 ∨ n = 1 ∨ n = 2 := by omega
  rcases hn' with h | h | h <;> subst h
  all_goals
    simp only [List.foldl_append, foldl_execGL_drawScene, hb]
  all_goals
    have hq' : q = 0 ∨ q = 1 ∨ q = 2 ∨ q = 3 ∨ q = 4 := by omega
    rcases hq' with h | h | h | h | h <;> subst h <;>
      first
        | omega
        | simp [blurOnePass, blurTwoPass, fullScreenPass, stamp, execGL, glBindFramebuffer,
            glBindTexture, timestamp, Function.update]

theorem timesAfter_benchmarked (ops : Collaborators T) (s : State T) (inp : Input T)
    (hb : inp.keyB = true) (n : Nat)
    (hsel : selectBlur inp.keyI inp.keyO inp.keyP s.numBlur = n) (hn : n ≤ 2) :
    timesAfter ops s inp TimeVar.startTime = timestamp inp 0
    ∧ timesAfter ops s inp TimeVar.startEye1 = timestamp inp 1
    ∧ timesAfter ops s inp TimeVar.endEye1 = timestamp inp 2
    ∧ (1 ≤ n → timesAfter ops s inp TimeVar.endBlur1 = timestamp inp 3)
    ∧ (2 ≤ n → timesAfter ops s inp TimeVar.endBlur2 = timestamp inp 4) := by
  have hq := queryResult_drawCmds ops s inp hb n hsel hn
  obtain ⟨r0, r1, r2, r3, r4, _⟩ :=
    readBack_apply ((drawCmds ops s inp).foldl (execGL inp.gpuTime) s.gl) s.times
  unfold timesAfter
  rw [if_pos hb, r0, r1, r2, r3, r4, hq 0 (by omega), hq 1 (by omega), hq 2 (by omega)]
  refine ⟨rfl, rfl, rfl, ?_, ?_⟩
  · intro h; rw [hq 3 (by omega)]; rfl
  · intro h; rw [hq 4 (by omega)]; rfl

theorem printed_frameCmds (ops : Collaborators T) (s : State T) (inp : Input T)
    (hb : inp.keyB = true) :
    printed (frameCmds ops s inp)
      = printed (report (selectBlur inp.keyI inp.keyO inp.keyP s.numBlur)
          (timesAfter ops s inp)) := by
  unfold frameCmds drawCmds
  generalize sceneItems = items
  generalize timesAfter ops s inp = t
  generalize selectBlur inp.keyI inp.keyO inp.keyP s.numBlur = n
  by_cases h1 : n = 1 <;> by_cases h2 : n = 2 <;> by_cases h0 : 0 < n
  all_goals
    simp [printed, List.filterMap_append, filterMap_drawScene, printedOf, collectCmds,
      blurOnePass, blurTwoPass, fullScreenPass, stamp, h0, h1, h2, hb,
      List.filterMap_replicate]

theorem framebufferAtSwap_append (g : Nat → Nat) (a rest : List Cmd) (gl : GLState)
    (h : a.filterMap swapOf = []) :
    framebufferAtSwap g gl (a ++ Cmd.glfwSwapBuffers :: rest)
      = some (a.foldl (execGL g) gl).boundFramebuffer := by
  induction a generalizing gl with
  | nil => simp [framebufferAtSwap]
  | cons c cs ih =>
    have hcs : cs.filterMap swapOf = [] := by
      cases c <;> simp_all [List.filterMap_cons, swapOf]
    have hc : c ≠ Cmd.glfwSwapBuffers := by
      intro hc; subst hc; simp [List.filterMap_cons, swapOf] at h
    rw [List.cons_append, List.foldl_cons, ← ih _ hcs]
    cases c <;> first | rfl | exact absurd rfl hc

theorem noSwap_before_present (ops : Collaborators T) (s : State T) (inp : Input T) :
    (drawCmds ops s inp
      ++ (if inp.keyB then
            collectCmds inp.gpuPolls
              (lastQueryAfter inp.keyB (selectBlur inp.keyI inp.keyO inp.keyP s.numBlur)
                s.lastQuery)
              (selectBlur inp.keyI inp.keyO inp.keyP s.numBlur) (timesAfter ops s inp)
          else [])).filterMap swapOf = [] := by
  unfold drawCmds
  generalize sceneItems = items
  generalize timesAfter ops s inp = t
  generalize selectBlur inp.keyI inp.keyO inp.keyP s.numBlur = n
  cases inp.keyB
  all_goals by_cases h1 : n = 1 <;> by_cases h2 : n = 2 <;> by_cases h0 : 0 < n
  all_goals
    simp [List.filterMap_append, filterMap_drawScene, swapOf, collectCmds, report,
      blurOnePass, blurTwoPass, fullScreenPass, stamp, h0, h1, h2, List.filterMap_replicate]

theorem frameState_gl (ops : Collaborators T) (s : State T) (inp : Input T) :
    (frameState ops s inp).gl = (frameCmds ops s inp).foldl (execGL inp.gpuTime) s.gl := by
  simp [frameState, foldl_resizeCallback]

/-- The default framebuffer is bound when a frame swaps the buffers. -/
theorem framebufferAtSwap_frameCmds (ops : Collaborators T) (s : State T) (inp : Input T) :
    framebufferAtSwap inp.gpuTime s.gl (frameCmds ops s inp) = some 0 := by
  have h0 := frameState_boundFramebuffer ops s inp
  rw [frameState_gl] at h0
  unfold frameCmds at h0 ⊢
  simp only [List.append_assoc] at h0 ⊢
  rw [← List.append_assoc] at h0 ⊢
  rw [show [Cmd.glfwSwapBuffers, Cmd.glfwPollEvents]
        = Cmd.glfwSwapBuffers :: [Cmd.glfwPollEvents] from rfl] at h0 ⊢
  rw [framebufferAtSwap_append _ _ _ _ (noSwap_before_present ops s inp)]
  rw [List.foldl_append] at h0
  simpa [execGL] using h0

/-- Every iteration of the main loop after the first starts with the default framebuffer bound. -/
theorem frameStarts_tail (ops : Collaborators T) (s : State T) (inps : List (Input T)) :
    ∀ st ∈ (frameStarts ops s inps).tail, st.gl.boundFramebuffer = 0 := by
  cases inps with
  | nil => simp [frameStarts]
  | cons inp rest =>
    simp only [frameStarts]
    split
    · simp
    · simp only [List.tail_cons]
      have key : ∀ (r : List (Input T)) (s1 : State T), s1.gl.boundFramebuffer = 0 →
          ∀ st ∈ frameStarts ops s1 r, st.gl.boundFramebuffer = 0 := by
        intro r
        induction r with
        | nil => intro s1 _ st hst; simp [frameStarts] at hst
        | cons i r ih =>
          intro s1 h1 st hst
          simp only [frameStarts] at hst
          split at hst
          · simp at hst
          · rcases List.mem_cons.mp hst with h | h
            · rw [h]; exact h1
            · exact ih _ (frameState_boundFramebuffer ops s1 i) st h
      exact key rest _ (frameState_boundFramebuffer ops s inp)

/-- The function `MakeRT` touches the storage and the attachments of the new objects only and
leaves `viewportDimensions` as it is. -/
theorem makeRT_other_objects (s : State T) (i : Nat) :
    (∀ t, t ≠ s.gl.genTextures + 1 → (MakeRT i s).gl.texImage t = s.gl.texImage t)
    ∧ (∀ r, r ≠ s.gl.genRenderbuffers + 1 →
        (MakeRT i s).gl.renderbufferStorage r = s.gl.renderbufferStorage r)
    ∧ (∀ f, f ≠ s.gl.genFramebuffers + 1 →
        (MakeRT i s).gl.colorAttachment f = s.gl.colorAttachment f
        ∧ (MakeRT i s).gl.depthStencilAttachment f = s.gl.depthStencilAttachment f)
    ∧ (MakeRT i s).viewportDimensions = s.viewportDimensions := by
  refine ⟨?_, ?_, ?_, ?_⟩
  all_goals
    simp [MakeRT, glGenFramebuffers, glGenTextures, glGenRenderbuffers, glBindFramebuffer,
      glBindTexture, glBindRenderbuffer, glTexImage2D, glTexParameteri, glRenderbufferStorage,
      glFramebufferTexture2D, glFramebufferRenderbuffer]
  all_goals
    intro x hx
    simp [Function.update, hx]
/-- The function `MakeRT` leaves the framebuffer it created bound: after
`MakeRT(0); MakeRT(1);` this is `frameBuffer[1]`. A first iteration that selected mode None
would draw the scene there; this is why the statement on the main loop takes the key state of
the first iteration into account. -/
theorem first_frame_mode_none_draws_into_target1 (ops : Collaborators T) (gl : GLState)
    (transform : T) (times : TimeVar → Nat) (inp : Input T) :
    drawLog inp.gpuTime (startup gl transform times).gl
        (frame ops (startup gl transform times)
          { inp with keyI := true, keyO := false, keyP := false }).1
      = sceneDraws (gl.genFramebuffers + 2)
    ∧ (startup gl transform times).frameBuffer 1 = gl.genFramebuffers + 2
    ∧ (frame ops (startup gl transform times)
          { inp with keyI := true, keyO := false, keyP := false }).2.numBlur = 0 := by
  obtain ⟨hf0, hf1, ht0, ht1, _, _⟩ := startup_handles gl transform times
  obtain ⟨hb, _⟩ := startup_gl gl transform times
  refine ⟨?_, hf1, ?_⟩
  · simp [frame, drawLog_frameCmds, selectBlur, hb]
  · simp [frame, frameState, foldl_resizeCallback, selectBlur]

/-- A frame does not change the render-target handles. -/
theorem frameState_handles (ops : Collaborators T) (s : State T) (inp : Input T) :
    (frameState ops s inp).frameBuffer = s.frameBuffer
    ∧ (frameState ops s inp).screenTexture = s.screenTexture
    ∧ (frameState ops s inp).renderBuffer = s.renderBuffer := by
  simp [frameState, foldl_resizeCallback]

/-- From a state with the default framebuffer bound, every iteration starts with it bound and
with the same handles. -/
theorem frameRuns_later (ops : Collaborators T) (inps : List (Input T)) (s : State T)
    (h : s.gl.boundFramebuffer = 0) :
    ∀ run ∈ frameRuns ops s inps,
      run.1.gl.boundFramebuffer = 0
      ∧ run.1.frameBuffer = s.frameBuffer
      ∧ run.1.screenTexture = s.screenTexture := by
  induction inps generalizing s with
  | nil => intro run hrun; simp [frameRuns] at hrun
  | cons i r ih =>
    intro run hrun
    simp only [frameRuns] at hrun
    split at hrun
    · simp at hrun
    · rcases List.mem_cons.mp hrun with h1 | h1
      · subst h1; exact ⟨h, rfl, rfl⟩
      · obtain ⟨a, b, c⟩ := ih (frame ops s i).2 (frameState_boundFramebuffer ops s i) run h1
        obtain ⟨hf, ht, _⟩ := frameState_handles ops s i
        exact ⟨a, by rw [b]; exact hf, by rw [c]; exact ht⟩

theorem selectBlur_pos_of_keyI_false (keyO keyP : Bool) (n : Nat) (h : 0 < n) :
    0 < selectBlur false keyO keyP n := by
  unfold selectBlur
  cases keyO <;> cases keyP <;> simp [h]

/-- The column formula of `glm::translate` is multiplication by the translation matrix on the
right. -/
theorem translate_eq_mul (m : Mat4) (v : Vec3) : translate m v = m * translationMatrix v := by
  ext r c
  fin_cases c <;>
    simp [translate, translationMatrix, Matrix.mul_apply, Fin.sum_univ_four,
      Matrix.vecHead, Matrix.vecTail]

theorem uploads_drawScene (name : Uniform) (hn : name ≠ Uniform.worldMatrix)
    (ops : Collaborators T) (t : T) (items : List Item) :
    uploads name (drawScene ops t items).1 = [] := by
  unfold uploads
  induction items generalizing t with
  | nil => simp [drawScene]
  | cons it rest ih =>
    simp only [drawScene, List.filterMap_append, ih]
    simp [drawItem, uploadOf, Ne.symm hn]

/-- A frame uploads `cameraView1` and `cameraView2` once each. -/
theorem uploads_frameCmds (ops : Collaborators T) (s : State T) (inp : Input T) :
    uploads Uniform.cameraView1 (frameCmds ops s inp)
        = [cameraView1 ops s.viewportDimensions inp.camera]
    ∧ uploads Uniform.cameraView2 (frameCmds ops s inp)
        = [cameraView2 ops s.viewportDimensions inp.camera s.rotY
            (adjustMoveX inp.key1 inp.key2 s.moveX)] := by
  have hs1 := uploads_drawScene Uniform.cameraView1 (by decide) ops s.transform sceneItems
  have hs2 := uploads_drawScene Uniform.cameraView2 (by decide) ops s.transform sceneItems
  unfold uploads at hs1 hs2 ⊢
  unfold frameCmds drawCmds
  generalize sceneItems = items at hs1 hs2 ⊢
  generalize timesAfter ops s inp = t
  generalize selectBlur inp.keyI inp.keyO inp.keyP s.numBlur = n
  constructor
  all_goals
    cases inp.keyB
    all_goals by_cases h1 : n = 1 <;> by_cases h2 : n = 2 <;> by_cases h0 : 0 < n
    all_goals
      simp [List.filterMap_append, hs1, hs2, uploadOf, collectCmds, report,
        blurOnePass, blurTwoPass, fullScreenPass, stamp, h0, h1, h2, List.filterMap_replicate]

theorem halfTan_unit (a : ℚ) : cosHalfTan a * cosHalfTan a + sinHalfTan a * sinHalfTan a = 1 := by
  have hp : 0 < 1 + a * a := by nlinarith [mul_self_nonneg a]
  have h : (1 + a * a) ≠ 0 := ne_of_gt hp
  unfold cosHalfTan sinHalfTan
  field_simp
  ring

/-- For a yaw transform with non-zero scale and `(cosY, sinY)` on the unit circle,
`inverseMatrix` is the inverse of `matrix`. -/
theorem yaw_inverseMatrix (t : YawTransform) (hs : t.scale ≠ 0)
    (hc : t.cosY * t.cosY + t.sinY * t.sinY = 1) :
    t.inverseMatrix = (t.matrix)⁻¹ := by
  symm
  apply Matrix.inv_eq_left_inv
  ext i j
  fin_cases i <;> fin_cases j <;>
    simp [YawTransform.inverseMatrix, YawTransform.matrix, Matrix.mul_apply, Fin.sum_univ_four,
      Matrix.vecHead, Matrix.vecTail, Matrix.one_apply] <;>
    field_simp <;>
    first
      | ring1
      | linear_combination hc
      | linear_combination (-1 : ℚ) * hc
      | linear_combination t.scale * hc

/-- Over the yaw transforms `RotateY(a)` multiplies the matrix by `yawRotation a` on the right. -/
theorem yaw_rotate (t : YawTransform) (a : ℚ) :
    (yawCollaborators.RotateY t a).matrix = t.matrix * yawRotation a := by
  ext i j
  fin_cases i <;> fin_cases j <;>
    simp [yawCollaborators, YawTransform.matrix, yawRotation, Matrix.mul_apply,
      Fin.sum_univ_four, Matrix.vecHead, Matrix.vecTail] <;>
    ring

theorem yaw_right (t : YawTransform) (a : ℚ) (hs : t.scale ≠ 0)
    (hc : t.cosY * t.cosY + t.sinY * t.sinY = 1) :
    yawCollaborators.GetInverseMatrix (yawCollaborators.RotateY t a)
      = (t.matrix * yawRotation a)⁻¹ := by
  rw [← yaw_rotate]
  apply yaw_inverseMatrix
  · exact hs
  · have h := halfTan_unit a
    show (t.cosY * cosHalfTan a - t.sinY * sinHalfTan a)
          * (t.cosY * cosHalfTan a - t.sinY * sinHalfTan a)
        + (t.sinY * cosHalfTan a + t.cosY * sinHalfTan a)
          * (t.sinY * cosHalfTan a + t.cosY * sinHalfTan a) = 1
    linear_combination (cosHalfTan a * cosHalfTan a + sinHalfTan a * sinHalfTan a) * hc + h

end Lemmas

/-! ## The claims -/

section Claims

variable {T : Type}

/-- C1, evaluated on the code at a failing input: in the first frame, benchmarked (`B`) and with
mode None selected (`I`), the queries issued are 0, 1, 2 while the read-back block reads the
results of all five queries 0, 1, 2, 3, 4; queries 3 and 4 were never issued, so no result is
recorded for them. The read set is not the issued set. -/
theorem readback_reads_unissued_queries (ops : Collaborators T) (gl : GLState) (transform : T)
    (times : TimeVar → Nat) (inp : Input T) :
    issuedQueries (frame ops (startup gl transform times)
        { inp with keyI := true, keyO := false, keyP := false, keyB := true }).1 = [0, 1, 2]
    ∧ readQueries (frame ops (startup gl transform times)
        { inp with keyI := true, keyO := false, keyP := false, keyB := true }).1 = [0, 1, 2, 3, 4]
    ∧ (frame ops (startup gl transform times)
        { inp with keyI := true, keyO := false, keyP := false, keyB := true }).2.gl.queryResult 3
        = none
    ∧ (frame ops (startup gl transform times)
        { inp with keyI := true, keyO := false, keyP := false, keyB := true }).2.gl.queryResult 4
        = none := by
  unfold frame frameState frameCmds drawCmds
  rw [foldl_resizeCallback]
  generalize sceneItems = items
  simp only [List.foldl_append, foldl_execGL_collectCmds, foldl_execGL_drawScene]
  simp [report, collectCmds, blurOnePass, blurTwoPass, fullScreenPass, stamp, selectBlur,
      issuedQueries, polledQueries, readQueries, List.filterMap_append, issuedQuery, readQueryOf,
      filterMap_drawScene, lastQueryAfter, List.filterMap_replicate, List.foldl_append,
      foldl_execGL_drawScene, foldl_execGL_replicate_poll, execGL, (startup_gl gl transform times).2.1, glBindFramebuffer]


/-- C2, evaluated on the code at a failing input: in a frame with mode TwoPassSeparable (`P`)
the first full-screen pass is drawn into render target 1 (`frameBuffer[1]`) sampling
`screenTexture[0]`, and the second full-screen pass is drawn into the default framebuffer
sampling `screenTexture[0]` again, not the color texture `screenTexture[1]` attached to render
target 1. -/
theorem two_pass_second_pass_samples_target0 (ops : Collaborators T) (gl : GLState)
    (transform : T) (times : TimeVar → Nat) (inp : Input T) :
    drawLog inp.gpuTime (startup gl transform times).gl
        (frame ops (startup gl transform times) { inp with keyP := true }).1
      = sceneDraws (gl.genFramebuffers + 1)
        ++ [Draw.fullScreen (gl.genFramebuffers + 2) (some (gl.genTextures + 1)),
            Draw.fullScreen 0 (some (gl.genTextures + 1))]
    ∧ (startup gl transform times).frameBuffer 1 = gl.genFramebuffers + 2
    ∧ (startup gl transform times).screenTexture 0 = gl.genTextures + 1
    ∧ (startup gl transform times).screenTexture 1 = gl.genTextures + 2
    ∧ (startup gl transform times).gl.colorAttachment (gl.genFramebuffers + 2)
        = some (gl.genTextures + 2) := by
  obtain ⟨hf0, hf1, ht0, ht1, _, _⟩ := startup_handles gl transform times
  refine ⟨?_, hf1, ht0, ht1, ?_⟩
  · simp [frame, drawLog_frameCmds, selectBlur, hf0, hf1, ht0]
  · simp [startup, MakeRT, glGenFramebuffers, glGenTextures, glGenRenderbuffers,
      glBindFramebuffer, glBindTexture, glBindRenderbuffer, glTexImage2D, glTexParameteri,
      glRenderbufferStorage, glFramebufferTexture2D, glFramebufferRenderbuffer, Function.update]


/-- C3: in every iteration of the main loop run from start-up, the first one included, the
scene draw list is drawn into the default framebuffer 0 when the blur mode of that iteration
is None, and into render target 0 (`frameBuffer[0]`) when it is OnePass or TwoPassSeparable;
the same mode value selects the full-screen passes that follow. Key states are reported only
after events are processed, and the first `glfwPollEvents` is at the end of the first
iteration, so the first iteration reads key I as released (`hfirst`). -/
theorem scene_target_follows_mode (ops : Collaborators T) (gl : GLState) (transform : T)
    (times : TimeVar → Nat) (inps : List (Input T))
    (hfirst : ∀ inp ∈ inps.head?, inp.keyI = false) :
    ∀ run ∈ frameRuns ops (startup gl transform times) inps,
      drawLog run.2.gpuTime run.1.gl (frame ops run.1 run.2).1
        = sceneDraws (if selectBlur run.2.keyI run.2.keyO run.2.keyP run.1.numBlur = 0 then 0
                      else gl.genFramebuffers + 1)
          ++ (if selectBlur run.2.keyI run.2.keyO run.2.keyP run.1.numBlur = 1 then
                [Draw.fullScreen 0 (some (gl.genTextures + 1))] else [])
          ++ (if selectBlur run.2.keyI run.2.keyO run.2.keyP run.1.numBlur = 2 then
                [Draw.fullScreen (gl.genFramebuffers + 2) (some (gl.genTextures + 1)),
                 Draw.fullScreen 0 (some (gl.genTextures + 1))] else []) := by
  obtain ⟨hf0, hf1, ht0, _, _, _⟩ := startup_handles gl transform times
  obtain ⟨_, hnb, _⟩ := startup_vars gl transform times
  intro run hrun
  cases inps with
  | nil => simp [frameRuns] at hrun
  | cons i r =>
    simp only [frameRuns] at hrun
    split at hrun
    · simp at hrun
    · rcases List.mem_cons.mp hrun with h1 | h1
      · subst h1
        have hk : i.keyI = false := hfirst i (by simp)
        have hpos : 0 < selectBlur i.keyI i.keyO i.keyP (startup gl transform times).numBlur := by
          rw [hk, hnb]; exact selectBlur_pos_of_keyI_false _ _ 1 (by decide)
        simp only [frame, drawLog_frameCmds, hf0, hf1, ht0]
        generalize selectBlur i.keyI i.keyO i.keyP (startup gl transform times).numBlur = n
          at hpos
        have hz : n ≠ 0 := by omega
        simp [hpos, hz]
      · obtain ⟨hb, hfb, htx⟩ :=
          frameRuns_later ops r _ (frameState_boundFramebuffer ops _ i) run h1
        obtain ⟨hf, ht, _⟩ := frameState_handles ops (startup gl transform times) i
        have e0 : run.1.frameBuffer 0 = gl.genFramebuffers + 1 := by
          rw [hfb]
          show (frameState ops (startup gl transform times) i).frameBuffer 0 = _
          rw [hf, hf0]
        have e1 : run.1.frameBuffer 1 = gl.genFramebuffers + 2 := by
          rw [hfb]
          show (frameState ops (startup gl transform times) i).frameBuffer 1 = _
          rw [hf, hf1]
        have e2 : run.1.screenTexture 0 = gl.genTextures + 1 := by
          rw [htx]
          show (frameState ops (startup gl transform times) i).screenTexture 0 = _
          rw [ht, ht0]
        simp only [frame, drawLog_frameCmds, hb, e0, e1, e2]
        by_cases hz : selectBlur run.2.keyI run.2.keyO run.2.keyP run.1.numBlur = 0
        · simp [hz]
        · have : 0 < selectBlur run.2.keyI run.2.keyO run.2.keyP run.1.numBlur := by omega
          simp [hz, this]

/-- Witness for C3: an idle first iteration, then an iteration with key I pressed (mode None). -/
theorem scene_target_follows_mode_witness :
    (∀ inp ∈ [idleInput, { idleInput with keyI := true }].head?, inp.keyI = false)
    ∧ ∀ run ∈ frameRuns yawCollaborators startState [idleInput, { idleInput with keyI := true }],
        drawLog run.2.gpuTime run.1.gl (frame yawCollaborators run.1 run.2).1
          = sceneDraws (if selectBlur run.2.keyI run.2.keyO run.2.keyP run.1.numBlur = 0 then 0
                        else 1)
            ++ (if selectBlur run.2.keyI run.2.keyO run.2.keyP run.1.numBlur = 1 then
                  [Draw.fullScreen 0 (some 1)] else [])
            ++ (if selectBlur run.2.keyI run.2.keyO run.2.keyP run.1.numBlur = 2 then
                  [Draw.fullScreen 2 (some 1), Draw.fullScreen 0 (some 1)] else []) :=
  have h : ∀ inp ∈ [idleInput, { idleInput with keyI := true }].head?, inp.keyI = false := by
    intro inp hinp
    simp at hinp
    subst hinp
    rfl
  ⟨h, scene_target_follows_mode yawCollaborators freshGL originCamera (fun _ => 0)
        [idleInput, { idleInput with keyI := true }] h⟩

/-- C4, evaluated on the code at a failing input: after a frame whose event poll delivers a
resize notification to 800 x 600, `viewportDimensions` is (800, 600) while the color textures
and depth-stencil renderbuffers of both render targets still have the size 1366 x 768 they were
created with. -/
theorem render_targets_keep_size_after_resize (ops : Collaborators T) (gl : GLState)
    (transform : T) (times : TimeVar → Nat) (inp : Input T) :
    (frame ops (startup gl transform times) { inp with resizes := [(800, 600)] }).2.viewportDimensions
      = (800, 600)
    ∧ (frame ops (startup gl transform times) { inp with resizes := [(800, 600)] }).2.gl.texImage
        ((frame ops (startup gl transform times)
          { inp with resizes := [(800, 600)] }).2.screenTexture 0) = some (1366, 768)
    ∧ (frame ops (startup gl transform times) { inp with resizes := [(800, 600)] }).2.gl.texImage
        ((frame ops (startup gl transform times)
          { inp with resizes := [(800, 600)] }).2.screenTexture 1) = some (1366, 768)
    ∧ (frame ops (startup gl transform times)
          { inp with resizes := [(800, 600)] }).2.gl.renderbufferStorage
        ((frame ops (startup gl transform times)
          { inp with resizes := [(800, 600)] }).2.renderBuffer 0) = some (1366, 768)
    ∧ (frame ops (startup gl transform times)
          { inp with resizes := [(800, 600)] }).2.gl.renderbufferStorage
        ((frame ops (startup gl transform times)
          { inp with resizes := [(800, 600)] }).2.renderBuffer 1) = some (1366, 768) := by
  obtain ⟨_, _, ht0, ht1, hr0, hr1⟩ := startup_handles gl transform times
  obtain ⟨_, _, hi0, hi1, hs0, hs1⟩ := startup_gl gl transform times
  simp only [frame, frameState, foldl_resizeCallback, foldl_execGL_objects]
  simp [ht0, ht1, hr0, hr1, hi0, hi1, hs0, hs1]


/-- C5: for every surface width `w >= 0` with `55 * w` within the 32-bit `int` range, the two
viewport rectangles a frame sets are `[0, sizeX)` and `[v2startX, v2startX + sizeX)` with
`sizeX = 45 * w / 100` and `v2startX = 55 * w / 100`; they do not overlap
(`sizeX <= v2startX`) and lie inside the surface (`0 <= sizeX`, `v2startX + sizeX <= w`). -/
theorem viewport_regions_disjoint_inside (ops : Collaborators T) (s : State T) (inp : Input T)
    (h0 : 0 ≤ s.viewportDimensions.1) (hov : 55 * s.viewportDimensions.1 ≤ 2147483647) :
    viewportRegions (frame ops s inp).1
        = [(0, 0, 0, sizeX s.viewportDimensions.1, s.viewportDimensions.2),
           (1, v2startX s.viewportDimensions.1, 0, sizeX s.viewportDimensions.1,
             s.viewportDimensions.2)]
    ∧ 0 ≤ sizeX s.viewportDimensions.1
    ∧ sizeX s.viewportDimensions.1 ≤ v2startX s.viewportDimensions.1
    ∧ v2startX s.viewportDimensions.1 + sizeX s.viewportDimensions.1 ≤ s.viewportDimensions.1 :=
  ⟨viewportRegions_frameCmds ops s inp, split_bounds _ h0 hov⟩


/-- Witness for C5: the start state (width 1366). -/
theorem viewport_regions_disjoint_inside_witness :
    (0 ≤ startState.viewportDimensions.1 ∧ 55 * startState.viewportDimensions.1 ≤ 2147483647)
    ∧ sizeX startState.viewportDimensions.1 ≤ v2startX startState.viewportDimensions.1
    ∧ v2startX startState.viewportDimensions.1 + sizeX startState.viewportDimensions.1
        ≤ startState.viewportDimensions.1 :=
  ⟨⟨by decide, by decide⟩,
   (viewport_regions_disjoint_inside yawCollaborators startState idleInput
      (by decide) (by decide)).2.2⟩

/-- C6: for the surface width 1366 (the start state) a frame sets the left region at x = 0
with width 614 and the right region at x = 751 with width 614, the right region ends at 1365,
and no column `x` with `614 <= x < 751` belongs to either region. -/
theorem viewport_split_1366 (ops : Collaborators T) (gl : GLState) (transform : T)
    (times : TimeVar → Nat) (inp : Input T) :
    viewportRegions (frame ops (startup gl transform times) inp).1
        = [(0, 0, 0, 614, 768), (1, 751, 0, 614, 768)]
    ∧ sizeX 1366 = 614 ∧ v2startX 1366 = 751 ∧ v2startX 1366 + sizeX 1366 = 1365
    ∧ ∀ x : Int, 614 ≤ x ∧ x < 751 →
        ¬ inRegion 0 (sizeX 1366) x ∧ ¬ inRegion (v2startX 1366) (sizeX 1366) x := by
  have hs : sizeX 1366 = 614 := by decide
  have hv : v2startX 1366 = 751 := by decide
  refine ⟨?_, hs, hv, by rw [hs, hv]; rfl, ?_⟩
  · simp [frame, viewportRegions_frameCmds, (startup_vars gl transform times).1, hs, hv]
  · intro x hx
    rw [hs, hv]
    unfold inRegion
    omega


/-- C7: in every benchmarked frame with blur mode `numBlur <= 2` (the mode in effect after the key
selection), whatever `lastQuery` was before, the queries issued are exactly
`0, 1, ..., 2 + numBlur` in increasing order, every availability poll is on query
`2 + numBlur`, and `lastQuery` ends as `2 + numBlur`. -/
theorem queries_issued_in_order_last_polled (ops : Collaborators T) (s : State T) (inp : Input T)
    (hb : inp.keyB = true)
    (hm : selectBlur inp.keyI inp.keyO inp.keyP s.numBlur ≤ 2) :
    issuedQueries (frame ops s inp).1
        = List.range (3 + selectBlur inp.keyI inp.keyO inp.keyP s.numBlur)
    ∧ polledQueries (frame ops s inp).1
        = List.replicate (inp.gpuPolls + 1) (2 + selectBlur inp.keyI inp.keyO inp.keyP s.numBlur)
    ∧ (frame ops s inp).2.lastQuery = 2 + selectBlur inp.keyI inp.keyO inp.keyP s.numBlur := by
  unfold frame frameState frameCmds drawCmds
  rw [foldl_resizeCallback]
  generalize sceneItems = items
  generalize hn : selectBlur inp.keyI inp.keyO inp.keyP s.numBlur = n at hm
  have hn' : n = 0 ∨ n = 1 ∨ n = 2 := by omega
  rcases hn' with h | h | h <;> subst h <;>
    simp [collectCmds, report, blurOnePass, blurTwoPass, fullScreenPass, stamp, hb,
      issuedQueries, polledQueries, readQueries, List.filterMap_append, issuedQuery, polledQuery,
      filterMap_drawScene, List.range, List.range.loop, lastQueryAfter, List.filterMap_replicate]


/-- Witness for C7: the first frame, benchmarked, with mode TwoPassSeparable selected. -/
theorem queries_issued_in_order_last_polled_witness :
    (({ idleInput with keyB := true, keyP := true } : Input YawTransform).keyB = true
      ∧ selectBlur false false true startState.numBlur ≤ 2)
    ∧ issuedQueries (frame yawCollaborators startState
        { idleInput with keyB := true, keyP := true }).1 = [0, 1, 2, 3, 4]
    ∧ polledQueries (frame yawCollaborators startState
        { idleInput with keyB := true, keyP := true }).1 = [4]
    ∧ (frame yawCollaborators startState
        { idleInput with keyB := true, keyP := true }).2.lastQuery = 4 :=
  ⟨⟨rfl, by decide⟩,
   queries_issued_in_order_last_polled yawCollaborators startState
     { idleInput with keyB := true, keyP := true } rfl (by decide)⟩

/-- C8: for every state and input, the rendering commands of the benchmarked frame are exactly
the commands of the same frame not benchmarked (which contain no profiling command), and the
two frames end in states that agree on everything except `lastQuery`, the timestamp variables
and the recorded query results. The availability poll is assumed to end (`gpuPolls`). -/
theorem profiling_is_observational (ops : Collaborators T) (s : State T) (inp : Input T) :
    renderingCmds (frame ops s { inp with keyB := true }).1
        = (frame ops s { inp with keyB := false }).1
    ∧ renderingCmds (frame ops s { inp with keyB := false }).1
        = (frame ops s { inp with keyB := false }).1
    ∧ (frame ops s { inp with keyB := true }).2.forgetProfiling
        = (frame ops s { inp with keyB := false }).2.forgetProfiling := by
  refine ⟨renderingCmds_frameCmds ops s inp true, renderingCmds_frameCmds ops s inp false, ?_⟩
  have hgl := foldl_execGL_forgetQueries inp.gpuTime inp.gpuTime
    (frameCmds ops s { inp with keyB := true }) s.gl s.gl rfl
  rw [renderingCmds_frameCmds ops s inp true] at hgl
  simp only [frame, frameState, foldl_resizeCallback, State.forgetProfiling]
  simp only [hgl]


/-- C9: for every state, camera transform `T` and key combination, when `GetInverseMatrix`
returns the inverse of the transform's matrix and `RotateY(a)` multiplies it by `rotateY(a)` on
the right, the frame uploads as `cameraView1` the projection times `inverse(T)` and as
`cameraView2` the projection times `translate(inverse(T * rotateY(rotY)), (moveX, 0, 0))`,
where `translate(M, v)` is `M` times the translation matrix of `v` and `moveX` is the eye offset
of the frame, which is `<= 0`; with `rotateY(0)` the identity, `rotY = 0` and `moveX = 0` make
the two view matrices and the two uploaded view-projection matrices identical. -/
theorem eye_view_matrices (ops : Collaborators T) (toMatrix : T → Mat4) (rotateY : ℚ → Mat4)
    (s : State T) (inp : Input T)
    (hleft : ops.GetInverseMatrix inp.camera = (toMatrix inp.camera)⁻¹)
    (hright : ∀ a, a = s.rotY ∨ a = 0 →
      ops.GetInverseMatrix (ops.RotateY inp.camera a) = (toMatrix inp.camera * rotateY a)⁻¹)
    (hid : rotateY 0 = 1) :
    uploads Uniform.cameraView1 (frame ops s inp).1
        = [projection ops s.viewportDimensions * (toMatrix inp.camera)⁻¹]
    ∧ uploads Uniform.cameraView2 (frame ops s inp).1
        = [projection ops s.viewportDimensions
            * ((toMatrix inp.camera * rotateY s.rotY)⁻¹
                * translationMatrix ((frame ops s inp).2.moveX, 0, 0))]
    ∧ (frame ops s inp).2.moveX ≤ 0
    ∧ rightView ops inp.camera 0 0 = leftView ops inp.camera
    ∧ uploads Uniform.cameraView2
          (frame ops { s with rotY := 0, moveX := 0 }
            { inp with key1 := false, key2 := false }).1
        = uploads Uniform.cameraView1
          (frame ops { s with rotY := 0, moveX := 0 }
            { inp with key1 := false, key2 := false }).1 := by
  have hview : rightView ops inp.camera 0 0 = leftView ops inp.camera := by
    unfold rightView leftView
    rw [translate_eq_mul, hright 0 (Or.inr rfl), hid, mul_one, hleft]
    have ht : translationMatrix (0, 0, 0) = 1 := by
      ext i j
      fin_cases i <;> fin_cases j <;>
        simp [translationMatrix, Matrix.vecHead, Matrix.vecTail]
    rw [ht, mul_one]
  have hmove : (frame ops s inp).2.moveX = adjustMoveX inp.key1 inp.key2 s.moveX :=
    frameState_moveX ops s inp
  refine ⟨?_, ?_, ?_, hview, ?_⟩
  · simp only [frame, (uploads_frameCmds ops s inp).1, cameraView1, leftView, hleft]
  · rw [hmove]
    simp only [frame, (uploads_frameCmds ops s inp).2, cameraView2, rightView,
      translate_eq_mul, hright s.rotY (Or.inl rfl)]
  · rw [hmove]
    unfold adjustMoveX
    simp only
    split
    · exact le_refl 0
    · exact not_lt.mp ‹_›
  · simp only [frame, uploads_frameCmds, cameraView1, cameraView2]
    have hz : adjustMoveX false false 0 = 0 := by
      simp [adjustMoveX, keyAdjustedMoveX]
    rw [hz, hview]

/-- Witness for C9: a camera at (1, 2, 3) turned a quarter turn, `rotY` a quarter turn and
`moveX = -3/10`, over the rational yaw transforms. -/
theorem eye_view_matrices_witness :
    (yawCollaborators.GetInverseMatrix turnedCamera = (YawTransform.matrix turnedCamera)⁻¹
      ∧ (∀ a : ℚ, a = 1 ∨ a = 0 →
          yawCollaborators.GetInverseMatrix (yawCollaborators.RotateY turnedCamera a)
            = (YawTransform.matrix turnedCamera * yawRotation a)⁻¹)
      ∧ yawRotation 0 = 1)
    ∧ uploads Uniform.cameraView1
          (frame yawCollaborators { startState with rotY := 1 }
            { idleInput with camera := turnedCamera }).1
        = [projection yawCollaborators (1366, 768) * (YawTransform.matrix turnedCamera)⁻¹]
    ∧ uploads Uniform.cameraView2
          (frame yawCollaborators { startState with rotY := 1 }
            { idleInput with camera := turnedCamera }).1
        = [projection yawCollaborators (1366, 768)
            * ((YawTransform.matrix turnedCamera * yawRotation 1)⁻¹
                * translationMatrix (-3 / 10, 0, 0))] :=
  have hs : turnedCamera.scale ≠ 0 := by simp [turnedCamera]
  have hc : turnedCamera.cosY * turnedCamera.cosY + turnedCamera.sinY * turnedCamera.sinY = 1 := by
    simp [turnedCamera]
  have hleft : yawCollaborators.GetInverseMatrix turnedCamera
      = (YawTransform.matrix turnedCamera)⁻¹ := yaw_inverseMatrix turnedCamera hs hc
  have hright : ∀ a : ℚ, a = 1 ∨ a = 0 →
      yawCollaborators.GetInverseMatrix (yawCollaborators.RotateY turnedCamera a)
        = (YawTransform.matrix turnedCamera * yawRotation a)⁻¹ :=
    fun a _ => yaw_right turnedCamera a hs hc
  have h := eye_view_matrices yawCollaborators YawTransform.matrix yawRotation
    { startState with rotY := 1 } { idleInput with camera := turnedCamera }
    hleft hright yawRotation_zero
  ⟨⟨hleft, hright, yawRotation_zero⟩, h.1, by
    have h2 := h.2.1
    have hm : (frame yawCollaborators { startState with rotY := 1 }
        { idleInput with camera := turnedCamera }).2.moveX = -3 / 10 := by
      rw [show (frame yawCollaborators { startState with rotY := 1 }
        { idleInput with camera := turnedCamera }).2.moveX
          = adjustMoveX false false (-3 / 10) from frameState_moveX _ _ _]
      simp [adjustMoveX, keyAdjustedMoveX]
    rw [hm] at h2
    exact h2⟩

/-- C10: after the per-frame adjustment `moveX <= 0`, for every previous value and every
combination of the keys `1` and `2`; the result is the key-adjusted value capped at 0
(`min` with 0, no lower clamp), and this is the value used to build the right-eye matrix
uploaded as `cameraView2`. -/
theorem moveX_clamped_above_only (ops : Collaborators T) (s : State T) (inp : Input T) :
    (frame ops s inp).2.moveX ≤ 0
    ∧ (frame ops s inp).2.moveX = min (keyAdjustedMoveX inp.key1 inp.key2 s.moveX) 0
    ∧ Cmd.setMatrix Uniform.cameraView2
        (cameraView2 ops s.viewportDimensions inp.camera s.rotY (frame ops s inp).2.moveX)
        ∈ (frame ops s inp).1 := by
  simp only [frame, frameState_moveX]
  refine ⟨?_, ?_, ?_⟩
  · unfold adjustMoveX
    simp only
    split
    · exact le_refl 0
    · exact not_lt.mp ‹_›
  · unfold adjustMoveX
    simp only
    split
    · rw [min_eq_right (le_of_lt ‹_›)]
    · rw [min_eq_left (not_lt.mp ‹_›)]
  · simp [frameCmds, drawCmds]


/-- C11: in every benchmarked frame with blur mode `numBlur <= 2`, the value printed as
"Full Frame" is the timestamp of query `2 + numBlur` (Eye2Done for None, Blur1Done for OnePass,
Blur2Done for TwoPassSeparable) minus the timestamp of query 0 (FrameStart) in unsigned 64-bit
arithmetic, and the value printed as "Both eyes" is the timestamp of query 2 (Eye2Done) minus
that of query 1 (SceneStart); each is printed once. -/
theorem reported_frame_times (ops : Collaborators T) (s : State T) (inp : Input T)
    (hb : inp.keyB = true)
    (hm : selectBlur inp.keyI inp.keyO inp.keyP s.numBlur ≤ 2) :
    reported Label.fullFrame (frame ops s inp).1
        = [sub64 (timestamp inp (2 + selectBlur inp.keyI inp.keyO inp.keyP s.numBlur))
             (timestamp inp 0)]
    ∧ reported Label.bothEyes (frame ops s inp).1
        = [sub64 (timestamp inp 2) (timestamp inp 1)] := by
  obtain ⟨t0, t1, t2, t3, t4⟩ := timesAfter_benchmarked ops s inp hb _ rfl hm
  unfold frame reported
  rw [printed_frameCmds ops s inp hb]
  generalize selectBlur inp.keyI inp.keyO inp.keyP s.numBlur = n at hm t3 t4
  have hn' : n = 0 ∨ n = 1 ∨ n = 2 := by omega
  rcases hn' with h | h | h <;> subst h
  · simp [printed, report, printedOf, t0, t1, t2]
  · simp [printed, report, printedOf, t0, t1, t2, t3]
  · simp [printed, report, printedOf, t0, t1, t2, t3, t4]

/-- Witness for C11: the first frame, benchmarked, with mode TwoPassSeparable selected; the GPU
stamps query `q` with `1000 * (q + 1)`. -/
theorem reported_frame_times_witness :
    (({ idleInput with keyB := true, keyP := true } : Input YawTransform).keyB = true
      ∧ selectBlur false false true startState.numBlur ≤ 2)
    ∧ reported Label.fullFrame (frame yawCollaborators startState
        { idleInput with keyB := true, keyP := true }).1 = [4000]
    ∧ reported Label.bothEyes (frame yawCollaborators startState
        { idleInput with keyB := true, keyP := true }).1 = [1000] :=
  ⟨⟨rfl, by decide⟩,
   reported_frame_times yawCollaborators startState
     { idleInput with keyB := true, keyP := true } rfl (by decide)⟩

/-- C12: for every state (in particular a surface size `(w, h)` with `w, h > 0` held in
`viewportDimensions`) and every index `i` (in particular 0 or 1), `MakeRT(i)` stores fresh
names in `frameBuffer[i]`, `screenTexture[i]` and `renderBuffer[i]`, gives the color texture
and the depth-stencil renderbuffer exactly the size held in `viewportDimensions`, attaches
both to the new framebuffer, and leaves the handles of every other index unchanged. -/
theorem makeRT_allocates_target (s : State T) (i : Nat) :
    (MakeRT i s).frameBuffer i = s.gl.genFramebuffers + 1
    ∧ (MakeRT i s).screenTexture i = s.gl.genTextures + 1
    ∧ (MakeRT i s).renderBuffer i = s.gl.genRenderbuffers + 1
    ∧ (MakeRT i s).gl.texImage ((MakeRT i s).screenTexture i) = some s.viewportDimensions
    ∧ (MakeRT i s).gl.renderbufferStorage ((MakeRT i s).renderBuffer i)
        = some s.viewportDimensions
    ∧ (MakeRT i s).gl.colorAttachment ((MakeRT i s).frameBuffer i)
        = some ((MakeRT i s).screenTexture i)
    ∧ (MakeRT i s).gl.depthStencilAttachment ((MakeRT i s).frameBuffer i)
        = some ((MakeRT i s).renderBuffer i)
    ∧ (∀ j, j ≠ i →
        (MakeRT i s).frameBuffer j = s.frameBuffer j
        ∧ (MakeRT i s).screenTexture j = s.screenTexture j
        ∧ (MakeRT i s).renderBuffer j = s.renderBuffer j) := by
  refine ⟨?_, ?_, ?_, ?_, ?_, ?_, ?_, ?_⟩
  all_goals
    simp [MakeRT, glGenFramebuffers, glGenTextures, glGenRenderbuffers, glBindFramebuffer,
      glBindTexture, glBindRenderbuffer, glTexImage2D, glTexParameteri, glRenderbufferStorage,
      glFramebufferTexture2D, glFramebufferRenderbuffer]
  intro j hj
  simp [Function.update, hj]

/-- C13: for every state and input (any blur mode, benchmarked or not), the default
framebuffer 0 is bound when the frame reaches the buffer swap; the last full-screen pass of the
frame, which exists exactly in the modes OnePass and TwoPassSeparable, is drawn into
framebuffer 0; the frame ends with framebuffer 0 bound, so every iteration of the main loop
after the first starts with it bound. -/
theorem default_framebuffer_at_present (ops : Collaborators T) (s : State T) (inp : Input T)
    (inps : List (Input T)) :
    framebufferAtSwap inp.gpuTime s.gl (frame ops s inp).1 = some 0
    ∧ (fullScreenTargets (drawLog inp.gpuTime s.gl (frame ops s inp).1)).getLast?
        = (if selectBlur inp.keyI inp.keyO inp.keyP s.numBlur = 1
              ∨ selectBlur inp.keyI inp.keyO inp.keyP s.numBlur = 2 then some 0 else none)
    ∧ (frame ops s inp).2.gl.boundFramebuffer = 0
    ∧ ∀ st ∈ (frameStarts ops s inps).tail, st.gl.boundFramebuffer = 0 := by
  refine ⟨framebufferAtSwap_frameCmds ops s inp, ?_, frameState_boundFramebuffer ops s inp,
    frameStarts_tail ops s inps⟩
  unfold frame
  simp only [drawLog_frameCmds]
  generalize selectBlur inp.keyI inp.keyO inp.keyP s.numBlur = n
  by_cases h1 : n = 1 <;> by_cases h2 : n = 2
  all_goals
    simp [fullScreenTargets, sceneDraws, List.filterMap_append, List.filterMap_map,
      fullScreenTarget, h1, h2]

end Claims

end TwoBlurVR
